import Mathlib

/-!
Verification of the nightseek visibility-and-merit engine.

This file gives a shallow embedding, in Lean 4, of the core algorithmic parts
of the nightseek repository and proves (or refutes) the frozen claims about
them.  Times are modelled as rational numbers (minutes on an abstract
timeline); Python floats are modelled as rationals; Python `None` is modelled
by `Option`; a Python function that can raise is modelled as returning
`Except`.  External collaborators (the Skyfield position oracle, the almanac,
`math.log10`) enter as function parameters of the embedded code.
-/

namespace NightSeek

/-! ## Scoring (src/cli/scoring.py) -/

/-- Weights for scoring components (`ScoreWeights` dataclass). -/
structure ScoreWeights where
  altitude_weight : ℚ
  moon_interference_weight : ℚ
  peak_timing_weight : ℚ
  weather_weight : ℚ
  surface_brightness_weight : ℚ
  magnitude_weight : ℚ
  type_suitability_weight : ℚ
  transient_bonus_weight : ℚ
  seasonal_window_weight : ℚ
  novelty_weight : ℚ
  deriving DecidableEq, Repr

/-- `DEFAULT_WEIGHTS = ScoreWeights()`, with the dataclass field defaults. -/
def DEFAULT_WEIGHTS : ScoreWeights :=
  { altitude_weight := 40
    moon_interference_weight := 30
    peak_timing_weight := 15
    weather_weight := 15
    surface_brightness_weight := 20
    magnitude_weight := 15
    type_suitability_weight := 15
    transient_bonus_weight := 25
    seasonal_window_weight := 15
    novelty_weight := 10 }

/-- A Python `datetime`, as far as the scoring code observes one: a point `t`
on a rational timeline (hours, so that `total_seconds()/3600` is a plain
difference) plus the `timetuple().tm_yday` day-of-year used by the seasonal
factor.  Timezone stripping (`replace(tzinfo=None)`) is the identity here. -/
structure PyDateTime where
  t : ℚ
  yday : ℕ
  deriving DecidableEq, Repr

/-- The duck-typed visibility argument of `score_object`: exactly the
attributes the scoring code reads (`max_altitude`, `max_altitude_time`,
`moon_separation`, `magnitude`, `object_name`, and the optional
`min_airmass` read via `getattr(..., None)`). -/
structure VisibilityInfo where
  object_name : String
  max_altitude : ℚ
  max_altitude_time : Option PyDateTime
  moon_separation : Option ℚ
  magnitude : Option ℚ
  min_airmass : Option ℚ
  deriving DecidableEq, Repr

/-- Score breakdown: the ten entries of the `breakdown` dict built by
`score_object`, in insertion order. -/
structure ScoreBreakdown where
  altitude : ℚ
  moon : ℚ
  timing : ℚ
  weather : ℚ
  surface_brightness : ℚ
  magnitude : ℚ
  type_suitability : ℚ
  transient : ℚ
  seasonal : ℚ
  novelty : ℚ
  deriving DecidableEq, Repr

/-- `sum(breakdown.values())`. -/
def ScoreBreakdown.total (b : ScoreBreakdown) : ℚ :=
  b.altitude + b.moon + b.timing + b.weather + b.surface_brightness +
    b.magnitude + b.type_suitability + b.transient + b.seasonal + b.novelty

/-- `ScoredObject` dataclass. -/
structure ScoredObject where
  object_name : String
  category : String
  subtype : String
  total_score : ℚ
  score_breakdown : ScoreBreakdown
  reason : String
  visibility : VisibilityInfo
  magnitude : Option ℚ
  deriving DecidableEq, Repr

/-- `DSO_MOON_SENSITIVITY` table from src/opengc_loader.py, including the
`.get(dso_subtype, 0.5)` default for unknown subtypes. -/
def DSO_MOON_SENSITIVITY (dso_subtype : String) : ℚ :=
  match dso_subtype with
  | "galaxy" => 0.8
  | "galaxy_group" => 0.8
  | "galaxy_pair" => 0.8
  | "galaxy_triplet" => 0.8
  | "galaxy_cluster" => 0.7
  | "planetary_nebula" => 0.5
  | "emission_nebula" => 0.9
  | "reflection_nebula" => 0.95
  | "supernova_remnant" => 0.85
  | "nebula" => 0.85
  | "open_cluster" => 0.3
  | "globular_cluster" => 0.4
  | "cluster_nebula" => 0.7
  | "quasar" => 0.2
  | "star" => 0.1
  | "double_star" => 0.1
  | "stellar_association" => 0.3
  | "asterism" => 0.2
  | "other" => 0.5
  | _ => 0.5

/-- `calculate_altitude_score`. -/
def calculate_altitude_score (max_altitude : ℚ) (min_airmass : Option ℚ)
    (weights : ScoreWeights) : ℚ :=
  match min_airmass with
  | some airmass =>
    if airmass < 99 then
      if airmass ≤ 1.05 then weights.altitude_weight * 0.95
      else if airmass ≤ 1.15 then weights.altitude_weight * 0.90
      else if airmass ≤ 1.41 then weights.altitude_weight * 0.75
      else if airmass ≤ 2.0 then weights.altitude_weight * 0.55
      else if airmass ≤ 3.0 then weights.altitude_weight * 0.30
      else weights.altitude_weight * 0.10
    else
      if max_altitude < 15 then 0
      else if 75 ≤ max_altitude then weights.altitude_weight * 0.95
      else if 60 ≤ max_altitude then weights.altitude_weight * 0.85
      else if 45 ≤ max_altitude then weights.altitude_weight * 0.70
      else if 30 ≤ max_altitude then weights.altitude_weight * 0.50
      else weights.altitude_weight * 0.30
  | none =>
    if max_altitude < 15 then 0
    else if 75 ≤ max_altitude then weights.altitude_weight * 0.95
    else if 60 ≤ max_altitude then weights.altitude_weight * 0.85
    else if 45 ≤ max_altitude then weights.altitude_weight * 0.70
    else if 30 ≤ max_altitude then weights.altitude_weight * 0.50
    else weights.altitude_weight * 0.30

/-- `calculate_moon_interference_score`. -/
def calculate_moon_interference_score (moon_separation : Option ℚ)
    (moon_illumination : ℚ) (object_type : String) (dso_subtype : String)
    (weights : ScoreWeights) : ℚ :=
  let max_score := weights.moon_interference_weight
  if object_type = "planet" then max_score * 0.9
  else if moon_illumination < 5 then max_score
  else
    let sensitivity : ℚ :=
      if object_type = "dso" ∧ dso_subtype ≠ "" then DSO_MOON_SENSITIVITY dso_subtype
      else if object_type = "comet" then 0.7
      else if object_type = "milky_way" then 1.0
      else 0.5
    let moon_factor := moon_illumination / 100
    let separation_factor : ℚ :=
      match moon_separation with
      | none => 1.0
      | some sep =>
        if 90 < sep then 0.3
        else if 60 < sep then 0.5
        else if 30 < sep then 0.7
        else 1.0
    let interference := moon_factor * sensitivity * separation_factor
    max_score * (1 - interference)

/-- `calculate_peak_timing_score`. -/
def calculate_peak_timing_score (max_altitude_time : Option PyDateTime)
    (window_start window_end : PyDateTime) (weights : ScoreWeights) : ℚ :=
  let max_score := weights.peak_timing_weight
  match max_altitude_time with
  | none => max_score * 0.3
  | some peak =>
    if window_start.t ≤ peak.t ∧ peak.t ≤ window_end.t then max_score
    else
      let hours_off : ℚ :=
        if peak.t < window_start.t then window_start.t - peak.t
        else peak.t - window_end.t
      if hours_off < 1 then max_score * 0.8
      else if hours_off < 2 then max_score * 0.6
      else if hours_off < 4 then max_score * 0.4
      else max_score * 0.2

/-- `calculate_weather_score`. -/
def calculate_weather_score (cloud_cover : Option ℚ) (aod : Option ℚ)
    (precip_probability : Option ℚ) (wind_gust_kmh : Option ℚ)
    (transparency : Option ℚ) (is_deep_sky : Bool) (is_planet : Bool)
    (weights : ScoreWeights) : ℚ :=
  let max_score := weights.weather_weight
  match cloud_cover with
  | none => max_score * 0.7
  | some clouds =>
    let base_score : ℚ :=
      if clouds < 10 then max_score
      else if clouds < 25 then max_score * 0.9
      else if clouds < 50 then max_score * 0.6
      else if clouds < 75 then max_score * 0.3
      else max_score * 0.1
    let aod_factor : ℚ :=
      match aod with
      | none => 1.0
      | some a =>
        if a < 0.1 then 1.0
        else if a < 0.2 then if is_deep_sky then 0.95 else 0.98
        else if a < 0.3 then if is_deep_sky then 0.85 else 0.92
        else if a < 0.5 then if is_deep_sky then 0.70 else 0.85
        else if is_deep_sky then 0.50 else 0.75
    let transparency_factor : ℚ :=
      match transparency with
      | none => 1.0
      | some tr =>
        if is_deep_sky then
          if 80 ≤ tr then 1.05
          else if 60 ≤ tr then 1.0
          else if 40 ≤ tr then 0.90
          else 0.75
        else 1.0
    let precip_factor : ℚ :=
      match precip_probability with
      | none => 1.0
      | some p =>
        if 70 < p then 0.3
        else if 50 < p then 0.5
        else if 30 < p then 0.7
        else if 10 < p then 0.9
        else 1.0
    let wind_factor : ℚ :=
      match wind_gust_kmh with
      | none => 1.0
      | some w =>
        if w < 15 then 1.0
        else if w < 25 then if is_planet then 0.98 else 0.95
        else if w < 40 then if is_planet then 0.92 else 0.80
        else if w < 55 then if is_planet then 0.80 else 0.60
        else if is_planet then 0.60 else 0.40
    base_score * aod_factor * transparency_factor * precip_factor * wind_factor

/-- `calculate_surface_brightness_score`.  The transcendental estimate
`magnitude + 2.5 * math.log10(max((angular_size * 60) ** 2 * math.pi / 4, 1))`
(it involves `math.pi` and `math.log10`) is modelled by the oracle parameter
`sb_estimate`, applied to the magnitude and the angular size; the tier logic
around it is embedded directly. -/
def calculate_surface_brightness_score (sb_estimate : ℚ → ℚ → ℚ)
    (surface_brightness : Option ℚ) (magnitude : Option ℚ)
    (angular_size : ℚ) (weights : ScoreWeights) : ℚ :=
  let max_score := weights.surface_brightness_weight
  match surface_brightness with
  | some sb =>
    if sb < 20 then max_score
    else if sb < 22 then max_score * 0.8
    else if sb < 24 then max_score * 0.6
    else if sb < 26 then max_score * 0.4
    else max_score * 0.2
  | none =>
    match magnitude with
    | some mag =>
      if 0 < angular_size then
        let estimated_sb := sb_estimate mag angular_size
        if estimated_sb < 20 then max_score
        else if estimated_sb < 22 then max_score * 0.7
        else if estimated_sb < 24 then max_score * 0.5
        else max_score * 0.3
      else max_score * 0.5
    | none => max_score * 0.5

/-- `calculate_magnitude_score`. -/
def calculate_magnitude_score (magnitude : Option ℚ) (object_type : String)
    (weights : ScoreWeights) : ℚ :=
  let max_score := weights.magnitude_weight
  match magnitude with
  | none => max_score * 0.5
  | some mag =>
    if object_type = "planet" then
      if mag < -2 then max_score
      else if mag < 0 then max_score * 0.9
      else if mag < 2 then max_score * 0.7
      else max_score * 0.5
    else if object_type = "comet" ∨ object_type = "asteroid" then
      if mag < 6 then max_score
      else if mag < 8 then max_score * 0.8
      else if mag < 10 then max_score * 0.6
      else if mag < 12 then max_score * 0.4
      else max_score * 0.2
    else
      if mag < 5 then max_score
      else if mag < 7 then max_score * 0.9
      else if mag < 9 then max_score * 0.7
      else if mag < 11 then max_score * 0.5
      else if mag < 13 then max_score * 0.3
      else max_score * 0.2

/-- `calculate_type_suitability_score`. -/
def calculate_type_suitability_score (object_type dso_subtype : String)
    (moon_illumination : ℚ) (weights : ScoreWeights) : ℚ :=
  let max_score := weights.type_suitability_weight
  if moon_illumination < 30 then
    if object_type = "milky_way" then max_score
    else if dso_subtype = "emission_nebula" ∨ dso_subtype = "reflection_nebula" ∨
        dso_subtype = "galaxy" then max_score * 0.95
    else if dso_subtype = "planetary_nebula" ∨ dso_subtype = "supernova_remnant" then
      max_score * 0.85
    else if object_type = "comet" then max_score * 0.8
    else if dso_subtype = "open_cluster" ∨ dso_subtype = "globular_cluster" then
      max_score * 0.7
    else if object_type = "planet" then max_score * 0.6
    else max_score * 0.5
  else
    if object_type = "planet" then max_score
    else if dso_subtype = "globular_cluster" ∨ dso_subtype = "open_cluster" then
      max_score * 0.9
    else if dso_subtype = "planetary_nebula" then max_score * 0.7
    else if object_type = "comet" then max_score * 0.5
    else if dso_subtype = "galaxy" ∨ dso_subtype = "emission_nebula" then
      max_score * 0.3
    else if object_type = "milky_way" then max_score * 0.1
    else max_score * 0.4

/-- `calculate_transient_bonus`. -/
def calculate_transient_bonus (object_type : String) (is_interstellar : Bool)
    (is_near_perihelion : Bool) (weights : ScoreWeights) : ℚ :=
  let max_bonus := weights.transient_bonus_weight
  if is_interstellar then max_bonus
  else if object_type = "comet" then
    if is_near_perihelion then max_bonus * 0.7 else max_bonus * 0.5
  else if object_type = "asteroid" then max_bonus * 0.3
  else 0

/-- Python `a % b` on floats (used for `sun_ra` wrapping): `a - b * floor (a / b)`. -/
def pymod (a b : ℚ) : ℚ := a - b * ⌊a / b⌋

/-- `calculate_seasonal_window_score`. -/
def calculate_seasonal_window_score (ra_hours : ℚ) (observation_date : PyDateTime)
    (weights : ScoreWeights) : ℚ :=
  let max_score := weights.seasonal_window_weight
  let day_of_year : ℚ := observation_date.yday
  let sun_ra := pymod ((day_of_year - 80) / 365.25 * 24) 24
  let ra_diff₀ := |ra_hours - sun_ra|
  let ra_diff := if 12 < ra_diff₀ then 24 - ra_diff₀ else ra_diff₀
  let opposition_factor := ra_diff / 12
  max_score * opposition_factor

/-- Python `str.isdigit()` (False on the empty string). -/
def pyIsDigit (s : String) : Bool := !s.isEmpty && s.all Char.isDigit

/-- Python `str.split()` with no argument: split on whitespace runs,
dropping empty pieces. -/
def pySplitWs (s : String) : List String :=
  (s.splitOn " ").filter (fun piece => piece ≠ "")

/-- `calculate_popularity_score`.  In `first_part[1:].replace(" ", "")` the
replace is the identity because `split()` pieces contain no spaces. -/
def calculate_popularity_score (common_name : String)
    (weights : ScoreWeights) : ℚ :=
  let max_score := weights.novelty_weight
  if common_name = "" then 0
  else
    if common_name.startsWith "M" ∧ 1 < common_name.length then
      let first_part := (pySplitWs common_name).headD ""
      if pyIsDigit (first_part.drop 1) ∨
          (2 < first_part.length ∧ pyIsDigit (first_part.drop 1)) then
        max_score
      else max_score * 0.5
    else max_score * 0.5

/-- `generate_score_reason`. -/
def generate_score_reason (breakdown : ScoreBreakdown) (max_altitude : ℚ)
    (moon_illumination : ℚ) : String :=
  let altReason : String :=
    if 75 ≤ max_altitude then "excellent altitude"
    else if 60 ≤ max_altitude then "very good altitude"
    else if 45 ≤ max_altitude then "good altitude"
    else if 30 ≤ max_altitude then "acceptable altitude"
    else "low altitude"
  let moonReason : String :=
    if moon_illumination < 20 then "dark sky"
    else if moon_illumination < 50 then "moderate moonlight"
    else if 15 < breakdown.moon then "moon tolerable"
    else "moon interference"
  let reasons := [altReason, moonReason] ++
    (if 15 < breakdown.transient then ["rare target"] else []) ++
    (if 10 < breakdown.seasonal then ["peak season"] else [])
  (String.intercalate ", " reasons).capitalize

/-- `score_object`.  Note the hard-coded `False` passed as
`is_near_perihelion` to `calculate_transient_bonus`, exactly as in the
source. -/
def score_object (sb_estimate : ℚ → ℚ → ℚ) (visibility : VisibilityInfo)
    (category subtype : String) (moon_illumination : ℚ)
    (observation_date : PyDateTime) (window_start window_end : PyDateTime)
    (cloud_cover aod precip_probability wind_gust_kmh transparency : Option ℚ)
    (ra_hours : ℚ) (common_name : String) (surface_brightness : Option ℚ)
    (angular_size : ℚ) (is_interstellar : Bool)
    (weights : ScoreWeights) : ScoredObject :=
  let min_airmass := visibility.min_airmass
  let is_deep_sky := category = "dso" ∨ category = "milky_way" ∨ category = "comet"
  let is_planet := category = "planet"
  let breakdown : ScoreBreakdown :=
    { altitude := calculate_altitude_score visibility.max_altitude min_airmass weights
      moon := calculate_moon_interference_score visibility.moon_separation
        moon_illumination category subtype weights
      timing := calculate_peak_timing_score visibility.max_altitude_time
        window_start window_end weights
      weather := calculate_weather_score cloud_cover aod precip_probability
        wind_gust_kmh transparency is_deep_sky is_planet weights
      surface_brightness := calculate_surface_brightness_score sb_estimate
        surface_brightness visibility.magnitude angular_size weights
      magnitude := calculate_magnitude_score visibility.magnitude category weights
      type_suitability := calculate_type_suitability_score category subtype
        moon_illumination weights
      transient := calculate_transient_bonus category is_interstellar false weights
      seasonal := calculate_seasonal_window_score ra_hours observation_date weights
      novelty := calculate_popularity_score common_name weights }
  let total_score := breakdown.total
  let reason := generate_score_reason breakdown visibility.max_altitude
    moon_illumination
  { object_name := visibility.object_name
    category := category
    subtype := subtype
    total_score := total_score
    score_breakdown := breakdown
    reason := reason
    visibility := visibility
    magnitude := visibility.magnitude }

/-- Stable sort by `total_score` descending, as Python
`sorted(key=lambda x: x.total_score, reverse=True)`.  A stable sort by a total
preorder has a unique result, so insertion sort reproduces Python exactly. -/
def sortByScoreDesc (l : List ScoredObject) : List ScoredObject :=
  l.insertionSort (fun a b => b.total_score ≤ a.total_score)

/-- Bump a `defaultdict(int)` subtype counter. -/
def bumpCount (counts : String → ℕ) (s : String) : String → ℕ :=
  fun x => if x = s then counts s + 1 else counts x

/-- Category-representation pass of `select_best_objects`: for each distinct
category, take the best-ranked object of that category unless already
selected.  The iteration order of the Python `set` of categories is
unspecified; it is modelled by `List.dedup` of the ranked categories, and all
proved facts are insensitive to that order. -/
def categoryPass (ranked : List ScoredObject) :
    List String → List ScoredObject → (String → ℕ) →
      List ScoredObject × (String → ℕ)
  | [], selected, counts => (selected, counts)
  | c :: cats, selected, counts =>
    match ranked.find? (fun o => o.category = c) with
    | none => categoryPass ranked cats selected counts
    | some best =>
      if best ∈ selected then categoryPass ranked cats selected counts
      else
        categoryPass ranked cats (selected ++ [best])
          (bumpCount counts best.subtype)

/-- Score-descending fill pass of `select_best_objects` (the second loop):
stop when `max_objects` reached, skip already-selected objects, skip objects
whose subtype reached the soft cap unless their score is at or above the
exceptional threshold. -/
def fillLoop (max_objects soft_cap : ℕ) (threshold : ℚ) :
    List ScoredObject → List ScoredObject → (String → ℕ) → List ScoredObject
  | [], selected, _ => selected
  | o :: rest, selected, counts =>
    if max_objects ≤ selected.length then selected
    else if o ∈ selected then fillLoop max_objects soft_cap threshold rest selected counts
    else if soft_cap ≤ counts o.subtype ∧ o.total_score < threshold then
      fillLoop max_objects soft_cap threshold rest selected counts
    else
      fillLoop max_objects soft_cap threshold rest (selected ++ [o])
        (bumpCount counts o.subtype)

/-- `select_best_objects`. -/
def select_best_objects (all_scored_objects : List ScoredObject)
    (max_objects : ℕ) (min_score : ℚ) (soft_cap_per_subtype : ℕ)
    (exceptional_score_threshold : ℚ)
    (ensure_category_representation : Bool) : List ScoredObject :=
  let viable := all_scored_objects.filter (fun o => min_score ≤ o.total_score)
  if viable = [] then
    (sortByScoreDesc all_scored_objects).take max_objects
  else
    let ranked := sortByScoreDesc viable
    let start :=
      if ensure_category_representation then
        categoryPass ranked ((ranked.map (fun o => o.category)).dedup) []
          (fun _ => 0)
      else ([], fun _ => 0)
    let selected :=
      fillLoop max_objects soft_cap_per_subtype exceptional_score_threshold
        ranked start.1 start.2
    sortByScoreDesc selected

/-- Test-input builder: a minimal `VisibilityInfo` (not a source translation). -/
def mkVisibility (name : String) (alt : ℚ) : VisibilityInfo :=
  { object_name := name, max_altitude := alt, max_altitude_time := none,
    moon_separation := none, magnitude := none, min_airmass := none }

/-- Test-input builder: a `ScoredObject` with the given identity and score
(not a source translation). -/
def mkScored (name cat sub : String) (score : ℚ) : ScoredObject :=
  { object_name := name, category := cat, subtype := sub, total_score := score,
    score_breakdown :=
      { altitude := 0, moon := 0, timing := 0, weather := 0,
        surface_brightness := 0, magnitude := 0, type_suitability := 0,
        transient := 0, seasonal := 0, novelty := 0 },
    reason := "", visibility := mkVisibility name 0, magnitude := none }

example :
    (select_best_objects [mkScored "a" "planet" "outer" 100,
        mkScored "b" "dso" "galaxy" 90] 1 60 3 180 true).length = 2 := by
  decide

example :
    (select_best_objects [mkScored "a" "dso" "galaxy" 10,
        mkScored "b" "dso" "galaxy" 9, mkScored "c" "dso" "galaxy" 8,
        mkScored "d" "dso" "galaxy" 7] 4 60 3 180 true).length = 4 := by
  decide

/-! ## Sky calculator (src/sky_calculator.py)

Timestamps are rationals (minutes on an abstract timeline);
`timedelta(days=1)` is `1440`.  The Skyfield almanac results consumed by
`get_night_info` (the `find_discrete` event lists and the moon phase) are
inputs of the embedding; the per-time apparent altitude and the moon
separation delivered by the position oracle are function parameters. -/

/-- `NightInfo` dataclass.  The twilight and rise/set fields are optional
here because the extraction from the almanac event lists can fail (that is
exactly what the assert at the end of `get_night_info` checks). -/
structure NightInfo where
  date : ℚ
  sunset : Option ℚ
  sunrise : Option ℚ
  astronomical_dusk : Option ℚ
  astronomical_dawn : Option ℚ
  moon_phase : ℚ
  moon_illumination : ℚ
  moon_rise : Option ℚ
  moon_set : Option ℚ
  deriving DecidableEq, Repr

/-- `ObjectVisibility` dataclass. -/
structure ObjectVisibility where
  object_name : String
  object_type : String
  is_visible : Bool
  max_altitude : ℚ
  max_altitude_time : Option ℚ
  above_45_start : Option ℚ
  above_45_end : Option ℚ
  above_60_start : Option ℚ
  above_60_end : Option ℚ
  above_75_start : Option ℚ
  above_75_end : Option ℚ
  moon_separation : Option ℚ
  moon_warning : Bool
  deriving DecidableEq, Repr

/-- Time of the last event in an almanac `find_discrete` result whose event
code satisfies `p` (a Python loop whose assignment lets the last match win). -/
def lastEvent (evs : List (ℚ × ℕ)) (p : ℕ → Bool) : Option ℚ :=
  ((evs.filter (fun e => p e.2)).getLast?).map (fun e => e.1)

/-- Time of the first event whose code satisfies `p` (a Python loop guarded
by `is None`, so the first match wins). -/
def firstEvent (evs : List (ℚ × ℕ)) (p : ℕ → Bool) : Option ℚ :=
  ((evs.filter (fun e => p e.2)).head?).map (fun e => e.1)

/-- Refactored twilight-dusk extraction of `get_night_info` (first dark event
of the day, extended to the next day when dusk or dawn is missing). -/
def twilightDusk (times_tw times_tw2 : List (ℚ × ℕ)) : Option ℚ :=
  let d₀ := firstEvent times_tw (fun e => e == 0)
  let n₀ := lastEvent times_tw (fun e => e == 4)
  if d₀.isNone ∨ n₀.isNone then d₀ <|> firstEvent times_tw2 (fun e => e == 0)
  else d₀

/-- Refactored twilight-dawn extraction of `get_night_info`. -/
def twilightDawn (times_tw times_tw2 : List (ℚ × ℕ)) : Option ℚ :=
  let d₀ := firstEvent times_tw (fun e => e == 0)
  let n₀ := lastEvent times_tw (fun e => e == 4)
  if d₀.isNone ∨ n₀.isNone then n₀ <|> firstEvent times_tw2 (fun e => e == 4)
  else n₀

/-- `get_night_info`.  Inputs: the date, the sunrise/sunset event list, the
twilight event list for the day, the extended twilight event list (queried
when dusk or dawn was not found), the moon phase in degrees, and the moon
rise/set event list.  The trailing `assert` is modelled by returning
`Except.error` when any of the four required times is missing. -/
def get_night_info (date : ℚ) (times_ss times_tw times_tw2 : List (ℚ × ℕ))
    (phase_degrees : ℚ) (times_moon : List (ℚ × ℕ)) :
    Except String NightInfo :=
  let sunset := lastEvent times_ss (fun e => e == 0)
  let sunrise := lastEvent times_ss (fun e => e != 0)
  let astronomical_dusk := twilightDusk times_tw times_tw2
  let astronomical_dawn := twilightDawn times_tw times_tw2
  let phase_fraction := phase_degrees / 360
  let illumination : ℚ :=
    if phase_degrees ≤ 180 then phase_degrees / 180
    else (360 - phase_degrees) / 180
  let moon_rise := lastEvent times_moon (fun e => e == 1)
  let moon_set := lastEvent times_moon (fun e => e != 1)
  match sunset, sunrise, astronomical_dusk, astronomical_dawn with
  | some ss, some sr, some dk, some dn =>
    Except.ok
      { date := date, sunset := some ss, sunrise := some sr,
        astronomical_dusk := some dk, astronomical_dawn := some dn,
        moon_phase := phase_fraction,
        moon_illumination := illumination * 100,
        moon_rise := moon_rise, moon_set := moon_set }
  | _, _, _, _ =>
    Except.error "Could not calculate twilight times (polar region?)"

/-- The wrap adjustment of `calculate_object_visibility`:
`if end <= start: end = end + timedelta(days=1)`. -/
def nightEnd (start dawn : ℚ) : ℚ := if dawn ≤ start then dawn + 1440 else dawn

/-- The sample times of `calculate_object_visibility`:
`current = start; while current <= end: append; current += interval`.
For `start ≤ end` and `0 < interval` this is
`start, start + interval, ..., start + K * interval` with
`K = floor ((end - start) / interval)`. -/
def sampleTimes (start end_ interval : ℚ) : List ℚ :=
  (List.range (1 + (⌊(end_ - start) / interval⌋).toNat)).map
    (fun i : ℕ => start + (i : ℚ) * interval)

/-- Index of the first maximum of a list (`numpy.argmax`). -/
def argmaxIdx (l : List ℚ) : ℕ :=
  (l.enum.foldl
    (fun best cur => if best.2 < cur.2 then cur else best)
    (0, l.headD 0)).1

/-- The inner `find_above_threshold`: the first and last sample time whose
altitude is at or above the threshold, or `(None, None)`. -/
def find_above_threshold (times : List ℚ) (altAt : ℚ → ℚ) (threshold : ℚ) :
    Option ℚ × Option ℚ :=
  let hits := times.filter (fun t => threshold ≤ altAt t)
  (hits.head?, hits.getLast?)

/-- The zero/non-visible `ObjectVisibility` returned when the night bounds
are missing. -/
def zeroVisibility (obj_name obj_type : String) : ObjectVisibility :=
  { object_name := obj_name, object_type := obj_type, is_visible := false,
    max_altitude := 0, max_altitude_time := none,
    above_45_start := none, above_45_end := none,
    above_60_start := none, above_60_end := none,
    above_75_start := none, above_75_end := none,
    moon_separation := none, moon_warning := false }

/-- `calculate_object_visibility`.  `altAt` is the vectorized oracle
observation (apparent altitude in degrees at a sample time) and `moonSepAt`
the separation oracle evaluated at the peak time; minute truncation of the
peak time in the Skyfield re-query is absorbed into `moonSepAt`. -/
def calculate_object_visibility (altAt : ℚ → ℚ) (moonSepAt : ℚ → ℚ)
    (obj_name obj_type : String) (night_info : NightInfo)
    (coarse : Bool) : ObjectVisibility :=
  match night_info.astronomical_dusk, night_info.astronomical_dawn with
  | some dusk, some dawn =>
    let start := dusk
    let end_ := nightEnd start dawn
    let sample_interval : ℚ := if coarse then 60 else 10
    let times := sampleTimes start end_ sample_interval
    let altitudes := times.map altAt
    let max_idx := argmaxIdx altitudes
    let max_altitude := altitudes.getD max_idx 0
    let max_altitude_time := times.getD max_idx 0
    let is_visible := 0 < max_altitude
    let above_45 := find_above_threshold times altAt 45
    let above_60 := find_above_threshold times altAt 60
    let above_75 := find_above_threshold times altAt 75
    let moon_separation : Option ℚ :=
      if is_visible then some (moonSepAt max_altitude_time) else none
    let moon_warning : Bool :=
      if is_visible then
        50 < night_info.moon_illumination ∧
          moonSepAt max_altitude_time < 30 ∧ obj_type = "dso"
      else false
    { object_name := obj_name, object_type := obj_type,
      is_visible := is_visible, max_altitude := max_altitude,
      max_altitude_time := if is_visible then some max_altitude_time else none,
      above_45_start := above_45.1, above_45_end := above_45.2,
      above_60_start := above_60.1, above_60_end := above_60.2,
      above_75_start := above_75.1, above_75_end := above_75.2,
      moon_separation := moon_separation, moon_warning := moon_warning }
  | _, _ => zeroVisibility obj_name obj_type

/-! ## Night search (src/search.py)

Dates are modelled as day offsets (ℕ) from `start_date`.  The calculator is
abstracted by two oracles: `calcVis ra dec d`, the `ObjectVisibility` that
`calculator.calculate_object_visibility(Star(ra, dec), "search-object",
"dso", calculator.get_night_info(start_date + d days))` produces, and
`nightInfoAt d`, the corresponding `NightInfo`.  Both searches additionally
return the trace of day offsets at which the per-night visibility check (and
with it the underlying oracle query) was evaluated, so that evaluation
counts can be stated. -/

/-- `MIN_ALTITUDE` constant. -/
def MIN_ALTITUDE : ℚ := 30

/-- `OPTIMAL_ALTITUDE` constant. -/
def OPTIMAL_ALTITUDE : ℚ := 45

/-- `MAX_SEARCH_DAYS` constant. -/
def MAX_SEARCH_DAYS : ℕ := 365

/-- `can_object_ever_be_visible` (the reason strings carry the templates
without the interpolated numbers). -/
def can_object_ever_be_visible (dec_degrees observer_latitude min_altitude : ℚ) :
    Bool × ℚ × Option String :=
  let max_alt := 90 - |observer_latitude - dec_degrees|
  if max_alt < 0 then
    (false, max_alt, some "Object never rises above the horizon at latitude")
  else if max_alt < min_altitude then
    (false, max_alt, some "Object only reaches altitude (below minimum)")
  else (true, max_alt, none)

/-- `can_object_reach_optimal`. -/
def can_object_reach_optimal (dec_degrees observer_latitude optimal_altitude : ℚ) :
    Bool × Option String :=
  let max_alt := 90 - |observer_latitude - dec_degrees|
  if max_alt < optimal_altitude then
    (false, some "Best altitude from your location (never reaches optimal)")
  else (true, none)

/-- `check_visibility_for_night`. -/
def check_visibility_for_night (calcVis : ℚ → ℚ → ℕ → ObjectVisibility)
    (observer_latitude : ℚ) (ra_hours dec_degrees : ℚ) (d : ℕ)
    (min_altitude : ℚ) : Bool × Option ObjectVisibility :=
  let quick := can_object_ever_be_visible dec_degrees observer_latitude min_altitude
  if quick.1 = false then (false, none)
  else
    let visibility := calcVis ra_hours dec_degrees d
    (min_altitude ≤ visibility.max_altitude, some visibility)

/-- `check_optimal_for_night`. -/
def check_optimal_for_night (calcVis : ℚ → ℚ → ℕ → ObjectVisibility)
    (observer_latitude : ℚ) (ra_hours dec_degrees : ℚ) (d : ℕ)
    (optimal_altitude : ℚ) : Bool × Option ObjectVisibility :=
  let quick := can_object_reach_optimal dec_degrees observer_latitude optimal_altitude
  if quick.1 = false then (false, none)
  else
    let visibility := calcVis ra_hours dec_degrees d
    (optimal_altitude ≤ visibility.max_altitude, some visibility)

/-- The probe offsets `[0, 1, 7, 14, 30, 60, 90, 180, 365]` filtered to the
horizon. -/
def checkDays (max_days : ℕ) : List ℕ :=
  [0, 1, 7, 14, 30, 60, 90, 180, 365].filter (fun d => d ≤ max_days)

/-- Exponential-probe loop shared by both searches, parameterized by the
per-date boolean predicate (`is_visible` or `is_optimal`).  A date whose
position lookup returns `None` is skipped without updating `last_invisible`.
Returns the final `last_invisible`, the `first_visible` offset (if any), and
the trace of offsets at which the predicate was evaluated. -/
def expProbe (getRaDec : ℕ → Option (ℚ × ℚ)) (pred : ℚ → ℚ → ℕ → Bool) :
    List ℕ → ℕ → ℕ × Option ℕ × List ℕ
  | [], last_invisible => (last_invisible, none, [])
  | d :: rest, last_invisible =>
    match getRaDec d with
    | none => expProbe getRaDec pred rest last_invisible
    | some (ra, dec) =>
      if pred ra dec d then (last_invisible, some d, [d])
      else
        let r := expProbe getRaDec pred rest d
        (r.1, r.2.1, d :: r.2.2)

/-- Binary-search loop shared by both searches:
`while first_visible - last_invisible > 1`, with a failed position lookup at
the midpoint treated as predicate-false (`last_invisible = mid`).  Returns
the final `first_visible` and the trace of evaluated offsets. -/
def binSearch (getRaDec : ℕ → Option (ℚ × ℚ)) (pred : ℚ → ℚ → ℕ → Bool)
    (last_invisible first_visible : ℕ) : ℕ × List ℕ :=
  if _h : 1 < first_visible - last_invisible then
    let mid := (last_invisible + first_visible) / 2
    match getRaDec mid with
    | none => binSearch getRaDec pred mid first_visible
    | some (ra, dec) =>
      if pred ra dec mid then
        let r := binSearch getRaDec pred last_invisible mid
        (r.1, mid :: r.2)
      else
        let r := binSearch getRaDec pred mid first_visible
        (r.1, mid :: r.2)
  else (first_visible, [])
termination_by first_visible - last_invisible
decreasing_by
  all_goals omega

/-- `find_next_visible_night`, instrumented with the trace of day offsets at
which `check_visibility_for_night` was evaluated. -/
def find_next_visible_night_traced (getRaDec : ℕ → Option (ℚ × ℚ))
    (calcVis : ℚ → ℚ → ℕ → ObjectVisibility) (nightInfoAt : ℕ → NightInfo)
    (observer_latitude : ℚ) (max_days : ℕ) :
    Option (ℕ × NightInfo × ObjectVisibility) × List ℕ :=
  let pred := fun ra dec d =>
    (check_visibility_for_night calcVis observer_latitude ra dec d MIN_ALTITUDE).1
  let e := expProbe getRaDec pred (checkDays max_days) 0
  match e.2.1 with
  | none => (none, e.2.2)
  | some first_visible₀ =>
    let b := binSearch getRaDec pred e.1 first_visible₀
    let first_visible := b.1
    match getRaDec first_visible with
    | none => (none, e.2.2 ++ b.2)
    | some (ra, dec) =>
      let c := check_visibility_for_night calcVis observer_latitude ra dec
        first_visible MIN_ALTITUDE
      match c.2 with
      | none => (none, e.2.2 ++ b.2 ++ [first_visible])
      | some visibility =>
        (some (first_visible, nightInfoAt first_visible, visibility),
          e.2.2 ++ b.2 ++ [first_visible])

/-- `find_next_visible_night` (the result component of the traced version). -/
def find_next_visible_night (getRaDec : ℕ → Option (ℚ × ℚ))
    (calcVis : ℚ → ℚ → ℕ → ObjectVisibility) (nightInfoAt : ℕ → NightInfo)
    (observer_latitude : ℚ) (max_days : ℕ) :
    Option (ℕ × NightInfo × ObjectVisibility) :=
  (find_next_visible_night_traced getRaDec calcVis nightInfoAt
    observer_latitude max_days).1

/-- `find_next_optimal_night`, instrumented like the visible-night search. -/
def find_next_optimal_night_traced (getRaDec : ℕ → Option (ℚ × ℚ))
    (calcVis : ℚ → ℚ → ℕ → ObjectVisibility) (nightInfoAt : ℕ → NightInfo)
    (observer_latitude : ℚ) (max_days : ℕ) :
    Option (ℕ × NightInfo × ObjectVisibility) × List ℕ :=
  let pred := fun ra dec d =>
    (check_optimal_for_night calcVis observer_latitude ra dec d OPTIMAL_ALTITUDE).1
  let e := expProbe getRaDec pred (checkDays max_days) 0
  match e.2.1 with
  | none => (none, e.2.2)
  | some first_optimal₀ =>
    let b := binSearch getRaDec pred e.1 first_optimal₀
    let first_optimal := b.1
    match getRaDec first_optimal with
    | none => (none, e.2.2 ++ b.2)
    | some (ra, dec) =>
      let c := check_optimal_for_night calcVis observer_latitude ra dec
        first_optimal OPTIMAL_ALTITUDE
      match c.2 with
      | none => (none, e.2.2 ++ b.2 ++ [first_optimal])
      | some visibility =>
        (some (first_optimal, nightInfoAt first_optimal, visibility),
          e.2.2 ++ b.2 ++ [first_optimal])

/-- `find_next_optimal_night` (the result component). -/
def find_next_optimal_night (getRaDec : ℕ → Option (ℚ × ℚ))
    (calcVis : ℚ → ℚ → ℕ → ObjectVisibility) (nightInfoAt : ℕ → NightInfo)
    (observer_latitude : ℚ) (max_days : ℕ) :
    Option (ℕ × NightInfo × ObjectVisibility) :=
  (find_next_optimal_night_traced getRaDec calcVis nightInfoAt
    observer_latitude max_days).1

/-! ## Weather windows (src/formatter.py)

The window-building part of `_group_by_weather_windows` (hour filtering,
category grouping, and the no-data fallback), over rational timestamps in
minutes (`timedelta(days=1)` is `1440`).  Timezone stripping and re-tagging
(`replace(tzinfo=...)`) are the identity on this timeline. -/

/-- `_get_weather_category`: category, description, and color from cloud
cover. -/
def get_weather_category (clouds : ℚ) : String × String × String :=
  if clouds < 10 then ("excellent", "Excellent", "green")
  else if clouds < 25 then ("good", "Good", "green")
  else if clouds < 40 then ("fair", "Fair", "yellow")
  else if clouds < 60 then ("poor", "Poor", "yellow")
  else ("bad", "Cloudy", "red")

/-- One entry of the `windows` list built by `_group_by_weather_windows`
(without the `objects` bucket, which is filled later and is outside the
window-building algorithm).  The fallback window carries `none` metrics and
category. -/
structure WeatherWindow where
  start : ℚ
  stop : ℚ
  avg_clouds : Option ℚ
  min_clouds : Option ℚ
  max_clouds : Option ℚ
  weather_category : Option String
  deriving DecidableEq, Repr

/-- Python `min` over a nonempty list of rationals, given as head and tail. -/
def qmin (x : ℚ) (l : List ℚ) : ℚ := l.foldl min x

/-- Python `max` over a nonempty list of rationals. -/
def qmax (x : ℚ) (l : List ℚ) : ℚ := l.foldl max x

/-- A data window from the clouds collected for one category run. -/
def mkWeatherWindow (start stop : ℚ) (clouds : List ℚ) (cat : String) :
    WeatherWindow :=
  { start := start, stop := stop,
    avg_clouds := some (clouds.sum / clouds.length),
    min_clouds := some (qmin (clouds.headD 0) (clouds.tail)),
    max_clouds := some (qmax (clouds.headD 0) (clouds.tail)),
    weather_category := some cat }

/-- The grouping loop of `_group_by_weather_windows` (`for i in
range(1, len(night_hours))` plus the final-window append), carrying the
current window start, its category, its collected cloud values, and the
windows emitted so far. -/
def weatherLoop (dawnN : ℚ) :
    List (ℚ × ℚ) → ℚ → String → List ℚ → List WeatherWindow →
      List WeatherWindow
  | [], current_start, current_cat, current_clouds, windows =>
    windows ++ [mkWeatherWindow current_start dawnN current_clouds current_cat]
  | (hour, clouds) :: rest, current_start, current_cat, current_clouds,
      windows =>
    let cat := (get_weather_category clouds).1
    if cat ≠ current_cat then
      weatherLoop dawnN rest hour cat [clouds]
        (windows ++ [mkWeatherWindow current_start hour current_clouds current_cat])
    else
      weatherLoop dawnN rest current_start current_cat
        (current_clouds ++ [clouds]) windows

/-- Python `sorted` on `(datetime, float)` pairs: stable sort by the
lexicographic tuple order (hour keys come from a dict and are distinct in
practice, so the second component rarely matters). -/
def sortHours (l : List (ℚ × ℚ)) : List (ℚ × ℚ) :=
  l.insertionSort (fun a b => a.1 < b.1 ∨ (a.1 = b.1 ∧ a.2 ≤ b.2))

/-- The window-building part of `_group_by_weather_windows`: `None` night
bounds give `[]`; otherwise hourly data is clipped to `[dusk, dawn]` and
grouped by category, and if no window was built a single whole-night
fallback window with undefined category is emitted. -/
def build_weather_windows (hourly_data : List (ℚ × ℚ))
    (dusk? dawn? : Option ℚ) : List WeatherWindow :=
  match dusk?, dawn? with
  | some dusk, some dawn₀ =>
    let dawn := if dawn₀ ≤ dusk then dawn₀ + 1440 else dawn₀
    let windows :=
      if hourly_data ≠ [] then
        let night_hours :=
          sortHours (hourly_data.filter
            (fun p => dusk ≤ p.1 ∧ p.1 ≤ dawn))
        match night_hours with
        | [] => []
        | (h₀, c₀) :: rest =>
          weatherLoop dawn rest h₀ (get_weather_category c₀).1 [c₀] []
      else []
    if windows = [] then
      [{ start := dusk, stop := dawn, avg_clouds := none,
         min_clouds := none, max_clouds := none, weather_category := none }]
    else windows
  | _, _ => []

/-- Specification-side view of the grouping, following the spec text: a
maximal run of consecutive hours sharing one derived weather category,
recorded as the run start, the category, and the cloud values of the run. -/
structure WeatherRun where
  start : ℚ
  cat : String
  clouds : List ℚ
  deriving DecidableEq, Repr

/-- Prepend a run to a run list, merging it with the head when the head
shares its category. -/
def consRun (r : WeatherRun) (rs : List WeatherRun) : List WeatherRun :=
  match rs with
  | [] => [r]
  | rr :: rest =>
    if rr.cat = r.cat then
      ⟨r.start, r.cat, r.clouds ++ rr.clouds⟩ :: rest
    else r :: rr :: rest

/-- The maximal category runs of an hourly sequence. -/
def runsOf : List (ℚ × ℚ) → List WeatherRun
  | [] => []
  | (hour, clouds) :: rest =>
    consRun ⟨hour, (get_weather_category clouds).1, [clouds]⟩ (runsOf rest)

/-- Windows from runs, as the spec words them: each window spans from its
run start to the next run start, records avg/min/max of the run clouds and
the run category, and the final window extends to the night end. -/
def windowsOfRuns (dawnN : ℚ) : List WeatherRun → List WeatherWindow
  | [] => []
  | [r] => [mkWeatherWindow r.start dawnN r.clouds r.cat]
  | r :: rr :: rest =>
    mkWeatherWindow r.start rr.start r.clouds r.cat ::
      windowsOfRuns dawnN (rr :: rest)

/-! ## Theorems -/

/-- C1: `select_best_objects` violates its length bound: with
`max_objects = 1` and two viable objects in distinct categories (defaults
`min_score = 60`, `soft_cap = 3`, `threshold = 180`,
`ensure_category_representation = True`), the category-representation pass
appends one object per category without consuming the requested budget, so
the returned list has length 2 > 1. -/
theorem select_best_objects_exceeds_max_objects :
    (select_best_objects
      [mkScored "a" "planet" "outer" 100, mkScored "b" "dso" "galaxy" 90]
      1 60 3 180 true).length = 2 := by
  decide

/-- C6 counterexample: `score_object` passes a literal `False` as
`is_near_perihelion`, so a (near-perihelion, non-interstellar) comet gets
`0.5 ×` the transient bonus weight (12.5), never the claimed `0.7 ×` (17.5);
nothing in the inputs of `score_object` can change that. -/
theorem score_object_comet_transient_half :
    (score_object (fun _ _ => 0) (mkVisibility "comet-x" 50) "comet" ""
      0 ⟨0, 100⟩ ⟨0, 0⟩ ⟨6, 0⟩ none none none none none 0 "" none 1 false
      DEFAULT_WEIGHTS).score_breakdown.transient = 25 / 2 ∧
    (25 : ℚ) / 2 ≠ 0.7 * DEFAULT_WEIGHTS.transient_bonus_weight := by
  constructor
  · simp [score_object, calculate_transient_bonus, DEFAULT_WEIGHTS]
    norm_num
  · simp [DEFAULT_WEIGHTS]
    norm_num

/-- C6 (amended): `calculate_transient_bonus` itself gives a near-perihelion
non-interstellar comet `0.7 ×` the bonus weight, `0.5 ×` otherwise, the full
bonus to interstellar objects, `0.3 ×` to asteroids and `0` to static
objects; but `score_object` hard-codes `is_near_perihelion = False`, so
every non-interstellar comet it scores gets `0.5 ×` the bonus weight. -/
theorem transient_bonus_spec :
    ∀ w : ScoreWeights,
      calculate_transient_bonus "comet" false true w =
        w.transient_bonus_weight * 0.7 ∧
      calculate_transient_bonus "comet" false false w =
        w.transient_bonus_weight * 0.5 ∧
      (∀ t b, calculate_transient_bonus t true b w = w.transient_bonus_weight) ∧
      (∀ b, calculate_transient_bonus "asteroid" false b w =
        w.transient_bonus_weight * 0.3) ∧
      (∀ t b, t ≠ "comet" → t ≠ "asteroid" →
        calculate_transient_bonus t false b w = 0) ∧
      (∀ sb_estimate visibility subtype moon_illumination observation_date
          window_start window_end cloud_cover aod precip_probability
          wind_gust_kmh transparency ra_hours common_name surface_brightness
          angular_size,
        (score_object sb_estimate visibility "comet" subtype
          moon_illumination observation_date window_start window_end
          cloud_cover aod precip_probability wind_gust_kmh transparency
          ra_hours common_name surface_brightness angular_size false
          w).score_breakdown.transient = w.transient_bonus_weight * 0.5) := by
  intro w
  refine ⟨rfl, rfl, ?_, ?_, ?_, ?_⟩
  · intro t b
    simp [calculate_transient_bonus]
  · intro b
    simp [calculate_transient_bonus]
  · intro t b ht ha
    simp [calculate_transient_bonus, ht, ha]
  · intro sb_estimate visibility subtype moon_illumination observation_date
      window_start window_end cloud_cover aod precip_probability
      wind_gust_kmh transparency ra_hours common_name surface_brightness
      angular_size
    simp [score_object, calculate_transient_bonus]

/-- C6 witness: the amended theorem applied at concrete inputs. -/
theorem transient_bonus_spec_witness :
    calculate_transient_bonus "dso" false false DEFAULT_WEIGHTS = 0 :=
  ((transient_bonus_spec DEFAULT_WEIGHTS).2.2.2.2.1 "dso" false
    (by decide) (by decide))

/-- C3 counterexample: on a date with no twilight events at all (polar
conditions), `get_night_info` hits its `assert` and raises instead of
producing a `NightInfo` the visibility computation could turn into a
zero/non-visible record — so the night-visibility computation does not
"never raise". -/
theorem get_night_info_polar_raises :
    get_night_info 0 [] [] [] 90 [] =
      Except.error "Could not calculate twilight times (polar region?)" := by
  rfl

/-- C3 (amended): `calculate_object_visibility` itself, handed a `NightInfo`
with a missing dusk or dawn, returns the zero/non-visible `ObjectVisibility`
and cannot raise; but `get_night_info` succeeds exactly when all four of
sunset, sunrise, (extended) dusk and dawn can be extracted from the almanac
events, and otherwise raises its assertion instead of returning a record. -/
theorem night_visibility_polar_behavior :
    (∀ altAt moonSepAt obj_name obj_type night_info coarse,
      (night_info.astronomical_dusk = none ∨
        night_info.astronomical_dawn = none) →
      calculate_object_visibility altAt moonSepAt obj_name obj_type
        night_info coarse = zeroVisibility obj_name obj_type) ∧
    (∀ date times_ss times_tw times_tw2 phase_degrees times_moon,
      (∃ n, get_night_info date times_ss times_tw times_tw2 phase_degrees
          times_moon = Except.ok n) ↔
        ((lastEvent times_ss (fun e => e == 0)).isSome ∧
          (lastEvent times_ss (fun e => e != 0)).isSome ∧
          (twilightDusk times_tw times_tw2).isSome ∧
          (twilightDawn times_tw times_tw2).isSome)) := by
  constructor
  · intro altAt moonSepAt obj_name obj_type night_info coarse h
    rcases h with h | h
    · unfold calculate_object_visibility
      rw [h]
    · unfold calculate_object_visibility
      rw [h]
      cases night_info.astronomical_dusk <;> rfl
  · intro date times_ss times_tw times_tw2 phase_degrees times_moon
    unfold get_night_info
    cases hss : lastEvent times_ss (fun e => e == 0) <;>
      cases hsr : lastEvent times_ss (fun e => e != 0) <;>
        cases hdk : twilightDusk times_tw times_tw2 <;>
          cases hdn : twilightDawn times_tw times_tw2 <;>
            simp

/-- C3 witness: the amended theorem applied at a concrete missing-dusk
`NightInfo` and at concrete almanac inputs. -/
theorem night_visibility_polar_behavior_witness :
    calculate_object_visibility (fun _ => 10) (fun _ => 90) "m31" "dso"
      { date := 0, sunset := none, sunrise := none,
        astronomical_dusk := none, astronomical_dawn := some 100,
        moon_phase := 0, moon_illumination := 0,
        moon_rise := none, moon_set := none } false =
      zeroVisibility "m31" "dso" :=
  night_visibility_polar_behavior.1 (fun _ => 10) (fun _ => 90) "m31" "dso"
    _ false (Or.inl rfl)

/-- Specification predicate for one threshold window: when some sample
reaches the threshold the window is present, and its endpoints are the first
and the last sample at or above the threshold. -/
def IsThresholdWindow (times : List ℚ) (altAt : ℚ → ℚ) (threshold : ℚ)
    (ws we : Option ℚ) : Prop :=
  ((∃ t ∈ times, threshold ≤ altAt t) → ws.isSome ∧ we.isSome) ∧
  (∀ a, ws = some a → a ∈ times ∧ threshold ≤ altAt a ∧
    ∀ t ∈ times, threshold ≤ altAt t → a ≤ t) ∧
  (∀ b, we = some b → b ∈ times ∧ threshold ≤ altAt b ∧
    ∀ t ∈ times, threshold ≤ altAt t → t ≤ b)

theorem head?_min {l : List ℚ} (hl : l.Pairwise (· < ·)) {a x : ℚ}
    (ha : l.head? = some a) (hx : x ∈ l) : a ≤ x := by
  cases l with
  | nil => simp at ha
  | cons b t =>
    simp only [List.head?_cons, Option.some.injEq] at ha
    subst ha
    rcases List.mem_cons.mp hx with h | h
    · exact le_of_eq h.symm
    · exact le_of_lt (List.rel_of_pairwise_cons hl h)

theorem getLast?_max {l : List ℚ} (hl : l.Pairwise (· < ·)) {b x : ℚ}
    (hb : l.getLast? = some b) (hx : x ∈ l) : x ≤ b := by
  have hrev : l.reverse.head? = some b := by
    rw [List.head?_reverse]; exact hb
  have hlrev : l.reverse.Pairwise (fun a c => c < a) :=
    List.pairwise_reverse.mpr hl
  have hxrev : x ∈ l.reverse := List.mem_reverse.mpr hx
  cases hrl : l.reverse with
  | nil => rw [hrl] at hrev; simp at hrev
  | cons c t =>
    rw [hrl] at hrev hlrev hxrev
    simp only [List.head?_cons, Option.some.injEq] at hrev
    subst hrev
    rcases List.mem_cons.mp hxrev with h | h
    · exact le_of_eq h
    · exact le_of_lt (List.rel_of_pairwise_cons hlrev h)

theorem find_above_threshold_isWindow {times : List ℚ}
    (hst : times.Pairwise (· < ·)) (altAt : ℚ → ℚ) (threshold : ℚ) :
    IsThresholdWindow times altAt threshold
      (find_above_threshold times altAt threshold).1
      (find_above_threshold times altAt threshold).2 := by
  simp only [find_above_threshold, IsThresholdWindow]
  set hits := times.filter (fun t => decide (threshold ≤ altAt t)) with hhits
  have hpw : hits.Pairwise (· < ·) := List.Pairwise.filter _ hst
  refine ⟨?_, ?_, ?_⟩
  · rintro ⟨t, htmem, htge⟩
    have hne : hits ≠ [] := by
      intro hnil
      have := List.filter_eq_nil_iff.mp (hhits ▸ hnil) t htmem
      simp [htge] at this
    exact ⟨List.head?_isSome.mpr hne, List.getLast?_isSome.mpr hne⟩
  · intro a ha
    have hamem : a ∈ hits := List.mem_of_mem_head? (by rw [ha]; rfl)
    have := List.mem_filter.mp hamem
    refine ⟨this.1, by simpa using this.2, ?_⟩
    intro t htmem htge
    exact head?_min hpw ha (List.mem_filter.mpr ⟨htmem, by simpa using htge⟩)
  · intro b hb
    have hbmem : b ∈ hits := List.mem_of_mem_getLast? (by rw [hb]; rfl)
    have := List.mem_filter.mp hbmem
    refine ⟨this.1, by simpa using this.2, ?_⟩
    intro t htmem htge
    exact getLast?_max hpw hb (List.mem_filter.mpr ⟨htmem, by simpa using htge⟩)

theorem window_nested_of_le {times : List ℚ} {altAt : ℚ → ℚ}
    {θ₁ θ₂ : ℚ} {s₁ e₁ s₂ e₂ : Option ℚ} (hθ : θ₂ ≤ θ₁)
    (w₁ : IsThresholdWindow times altAt θ₁ s₁ e₁)
    (w₂ : IsThresholdWindow times altAt θ₂ s₂ e₂) :
    ∀ a b, s₁ = some a → e₁ = some b →
      ∃ c d, s₂ = some c ∧ e₂ = some d ∧ c ≤ a ∧ b ≤ d := by
  intro a b ha hb
  obtain ⟨hamem, hage, -⟩ := w₁.2.1 a ha
  obtain ⟨hbmem, hbge, -⟩ := w₁.2.2 b hb
  obtain ⟨hs₂, he₂⟩ := w₂.1 ⟨a, hamem, le_trans hθ hage⟩
  obtain ⟨c, hc⟩ := Option.isSome_iff_exists.mp hs₂
  obtain ⟨d, hd⟩ := Option.isSome_iff_exists.mp he₂
  obtain ⟨-, -, hcmin⟩ := w₂.2.1 c hc
  obtain ⟨-, -, hdmax⟩ := w₂.2.2 d hd
  exact ⟨c, d, hc, hd, hcmin a hamem (le_trans hθ hage),
    hdmax b hbmem (le_trans hθ hbge)⟩

theorem sampleTimes_pairwise (start end_ : ℚ) {interval : ℚ}
    (hi : 0 < interval) : (sampleTimes start end_ interval).Pairwise (· < ·) := by
  unfold sampleTimes
  apply List.Pairwise.map
  · intro a b hab
    have hq : (a : ℚ) < (b : ℚ) := by exact_mod_cast hab
    have := mul_lt_mul_of_pos_right hq hi
    linarith
  · exact List.pairwise_lt_range _

theorem sampleTimes_mem_bounds {start end_ interval : ℚ} (hi : 0 < interval)
    (hse : start ≤ end_) {t : ℚ} (ht : t ∈ sampleTimes start end_ interval) :
    start ≤ t ∧ t ≤ end_ := by
  unfold sampleTimes at ht
  simp only [List.mem_map, List.mem_range] at ht
  obtain ⟨k, hk, rfl⟩ := ht
  have hknn : (0 : ℚ) ≤ (k : ℚ) * interval :=
    mul_nonneg (Nat.cast_nonneg k) (le_of_lt hi)
  refine ⟨by linarith, ?_⟩
  have hfl : (0 : ℤ) ≤ ⌊(end_ - start) / interval⌋ :=
    Int.floor_nonneg.mpr (div_nonneg (by linarith) (le_of_lt hi))
  have hkle : k ≤ (⌊(end_ - start) / interval⌋).toNat :=
    Nat.lt_one_add_iff.mp hk
  have hkq : (k : ℚ) ≤ ((⌊(end_ - start) / interval⌋ : ℤ) : ℚ) := by
    rw [← Int.toNat_of_nonneg hfl]
    exact_mod_cast hkle
  have : (k : ℚ) ≤ (end_ - start) / interval :=
    le_trans hkq (Int.floor_le _)
  have := (le_div_iff₀ hi).mp this
  linarith

theorem cov_window_fields (altAt moonSepAt : ℚ → ℚ)
    (obj_name obj_type : String) (night_info : NightInfo) (coarse : Bool)
    (dusk dawn : ℚ) (h1 : night_info.astronomical_dusk = some dusk)
    (h2 : night_info.astronomical_dawn = some dawn) :
    (calculate_object_visibility altAt moonSepAt obj_name obj_type night_info
        coarse).above_45_start =
      (find_above_threshold (sampleTimes dusk (nightEnd dusk dawn)
        (if coarse then 60 else 10)) altAt 45).1 ∧
    (calculate_object_visibility altAt moonSepAt obj_name obj_type night_info
        coarse).above_45_end =
      (find_above_threshold (sampleTimes dusk (nightEnd dusk dawn)
        (if coarse then 60 else 10)) altAt 45).2 ∧
    (calculate_object_visibility altAt moonSepAt obj_name obj_type night_info
        coarse).above_60_start =
      (find_above_threshold (sampleTimes dusk (nightEnd dusk dawn)
        (if coarse then 60 else 10)) altAt 60).1 ∧
    (calculate_object_visibility altAt moonSepAt obj_name obj_type night_info
        coarse).above_60_end =
      (find_above_threshold (sampleTimes dusk (nightEnd dusk dawn)
        (if coarse then 60 else 10)) altAt 60).2 ∧
    (calculate_object_visibility altAt moonSepAt obj_name obj_type night_info
        coarse).above_75_start =
      (find_above_threshold (sampleTimes dusk (nightEnd dusk dawn)
        (if coarse then 60 else 10)) altAt 75).1 ∧
    (calculate_object_visibility altAt moonSepAt obj_name obj_type night_info
        coarse).above_75_end =
      (find_above_threshold (sampleTimes dusk (nightEnd dusk dawn)
        (if coarse then 60 else 10)) altAt 75).2 := by
  unfold calculate_object_visibility
  rw [h1, h2]
  exact ⟨rfl, rfl, rfl, rfl, rfl, rfl⟩

/-- C2: for every night and every sampled object, the threshold windows of
`calculate_object_visibility` nest: the 75° window sits inside the 60°
window, which sits inside the 45° window, which sits inside
`[dusk, dawn]` (after the wrap adjustment `nightEnd`); and each window, when
present, runs from the first to the last sample whose altitude is at or
above its threshold. -/
theorem visibility_threshold_windows_nested :
    ∀ (altAt moonSepAt : ℚ → ℚ) (obj_name obj_type : String)
      (night_info : NightInfo) (coarse : Bool) (dusk dawn : ℚ),
      night_info.astronomical_dusk = some dusk →
      night_info.astronomical_dawn = some dawn →
      dusk ≤ nightEnd dusk dawn →
      ∀ vis times,
        vis = calculate_object_visibility altAt moonSepAt obj_name obj_type
          night_info coarse →
        times = sampleTimes dusk (nightEnd dusk dawn)
          (if coarse then 60 else 10) →
        IsThresholdWindow times altAt 45 vis.above_45_start vis.above_45_end ∧
        IsThresholdWindow times altAt 60 vis.above_60_start vis.above_60_end ∧
        IsThresholdWindow times altAt 75 vis.above_75_start vis.above_75_end ∧
        (∀ a b, vis.above_75_start = some a → vis.above_75_end = some b →
          ∃ c d, vis.above_60_start = some c ∧ vis.above_60_end = some d ∧
            c ≤ a ∧ b ≤ d) ∧
        (∀ a b, vis.above_60_start = some a → vis.above_60_end = some b →
          ∃ c d, vis.above_45_start = some c ∧ vis.above_45_end = some d ∧
            c ≤ a ∧ b ≤ d) ∧
        (∀ a b, vis.above_45_start = some a → vis.above_45_end = some b →
          dusk ≤ a ∧ a ≤ nightEnd dusk dawn ∧ dusk ≤ b ∧
            b ≤ nightEnd dusk dawn) := by
  intro altAt moonSepAt obj_name obj_type night_info coarse dusk dawn h1 h2
    h3 vis times hvis htimes
  have hint : (0 : ℚ) < if coarse then 60 else 10 := by
    cases coarse <;> norm_num
  have hpw := sampleTimes_pairwise dusk (nightEnd dusk dawn) hint
  have hf := cov_window_fields altAt moonSepAt obj_name obj_type night_info
    coarse dusk dawn h1 h2
  subst hvis
  subst htimes
  have w45 : IsThresholdWindow
      (sampleTimes dusk (nightEnd dusk dawn) (if coarse then 60 else 10))
      altAt 45
      (calculate_object_visibility altAt moonSepAt obj_name obj_type
        night_info coarse).above_45_start
      (calculate_object_visibility altAt moonSepAt obj_name obj_type
        night_info coarse).above_45_end := by
    rw [hf.1, hf.2.1]
    exact find_above_threshold_isWindow hpw altAt 45
  have w60 : IsThresholdWindow
      (sampleTimes dusk (nightEnd dusk dawn) (if coarse then 60 else 10))
      altAt 60
      (calculate_object_visibility altAt moonSepAt obj_name obj_type
        night_info coarse).above_60_start
      (calculate_object_visibility altAt moonSepAt obj_name obj_type
        night_info coarse).above_60_end := by
    rw [hf.2.2.1, hf.2.2.2.1]
    exact find_above_threshold_isWindow hpw altAt 60
  have w75 : IsThresholdWindow
      (sampleTimes dusk (nightEnd dusk dawn) (if coarse then 60 else 10))
      altAt 75
      (calculate_object_visibility altAt moonSepAt obj_name obj_type
        night_info coarse).above_75_start
      (calculate_object_visibility altAt moonSepAt obj_name obj_type
        night_info coarse).above_75_end := by
    rw [hf.2.2.2.2.1, hf.2.2.2.2.2]
    exact find_above_threshold_isWindow hpw altAt 75
  refine ⟨w45, w60, w75, ?_, ?_, ?_⟩
  · exact window_nested_of_le (by norm_num) w75 w60
  · exact window_nested_of_le (by norm_num) w60 w45
  · intro a b ha hb
    obtain ⟨hamem, -, -⟩ := w45.2.1 a ha
    obtain ⟨hbmem, -, -⟩ := w45.2.2 b hb
    obtain ⟨ha1, ha2⟩ := sampleTimes_mem_bounds hint h3 hamem
    obtain ⟨hb1, hb2⟩ := sampleTimes_mem_bounds hint h3 hbmem
    exact ⟨ha1, ha2, hb1, hb2⟩

/-- C2 witness: the nesting theorem applied to a concrete flat 50°-altitude
night from dusk 0 to dawn 600, where the 45° window is present. -/
theorem visibility_threshold_windows_nested_witness :
    (calculate_object_visibility (fun _ => 50) (fun _ => 90) "m31" "dso"
      { date := 0, sunset := none, sunrise := none,
        astronomical_dusk := some 0, astronomical_dawn := some 600,
        moon_phase := 0, moon_illumination := 0,
        moon_rise := none, moon_set := none } false).above_45_start.isSome ∧
    (calculate_object_visibility (fun _ => 50) (fun _ => 90) "m31" "dso"
      { date := 0, sunset := none, sunrise := none,
        astronomical_dusk := some 0, astronomical_dawn := some 600,
        moon_phase := 0, moon_illumination := 0,
        moon_rise := none, moon_set := none } false).above_45_end.isSome := by
  have h := (visibility_threshold_windows_nested (fun _ => 50) (fun _ => 90)
    "m31" "dso"
    { date := 0, sunset := none, sunrise := none,
      astronomical_dusk := some 0, astronomical_dawn := some 600,
      moon_phase := 0, moon_illumination := 0,
      moon_rise := none, moon_set := none } false 0 600 rfl rfl
    (by unfold nightEnd; norm_num) _ _ rfl rfl).1.1
  apply h
  refine ⟨0, ?_, by norm_num⟩
  unfold sampleTimes
  simp only [List.mem_map, List.mem_range]
  exact ⟨0, by positivity, by norm_num⟩

theorem expProbe_none_iff {getRaDec : ℕ → Option (ℚ × ℚ)}
    {pred : ℚ → ℚ → ℕ → Bool} :
    ∀ {probes : List ℕ} {li : ℕ},
      (expProbe getRaDec pred probes li).2.1 = none ↔
        ∀ d ∈ probes, ∀ ra dec, getRaDec d = some (ra, dec) →
          pred ra dec d = false := by
  intro probes
  induction probes with
  | nil => simp [expProbe]
  | cons d rest ih =>
    intro li
    simp only [expProbe]
    cases hg : getRaDec d with
    | none =>
      simp only [List.mem_cons]
      constructor
      · intro h e he ra dec hge
        rcases he with rfl | he
        · rw [hge] at hg
          exact absurd hg (by simp)
        · exact ih.mp h e he ra dec hge
      · intro h
        exact ih.mpr (fun e he ra dec hge => h e (Or.inr he) ra dec hge)
    | some p =>
      obtain ⟨ra, dec⟩ := p
      by_cases hp : pred ra dec d
      · simp only [hp, if_true]
        simp only [List.mem_cons]
        constructor
        · intro h
          exact absurd h (by simp)
        · intro h
          have := h d (Or.inl rfl) ra dec hg
          rw [hp] at this
          exact absurd this (by simp)
      · simp only [if_neg hp, List.mem_cons]
        constructor
        · intro h e he ra₁ dec₁ hge
          rcases he with rfl | he
          · rw [hge] at hg
            simp only [Option.some.injEq, Prod.mk.injEq] at hg
            obtain ⟨rfl, rfl⟩ := hg
            exact Bool.eq_false_iff.mpr hp
          · exact ih.mp h e he ra₁ dec₁ hge
        · intro h
          exact ih.mpr (fun e he ra₁ dec₁ hge => h e (Or.inr he) ra₁ dec₁ hge)

/-- For a day offset found by the exponential probe, the position lookup
succeeded and the predicate held, and the day is one of the probes. -/
theorem expProbe_some {getRaDec : ℕ → Option (ℚ × ℚ)}
    {pred : ℚ → ℚ → ℕ → Bool} :
    ∀ {probes : List ℕ} {li fv : ℕ},
      (expProbe getRaDec pred probes li).2.1 = some fv →
      fv ∈ probes ∧ ∃ ra dec, getRaDec fv = some (ra, dec) ∧
        pred ra dec fv = true := by
  intro probes
  induction probes with
  | nil => simp [expProbe]
  | cons d rest ih =>
    intro li fv
    simp only [expProbe]
    cases hg : getRaDec d with
    | none =>
      intro h
      obtain ⟨hmem, hrest⟩ := ih h
      exact ⟨List.mem_cons_of_mem _ hmem, hrest⟩
    | some p =>
      obtain ⟨ra, dec⟩ := p
      by_cases hp : pred ra dec d
      · simp only [hp, if_true]
        intro h
        injection h with h
        subst h
        exact ⟨List.mem_cons_self _ _, ra, dec, hg, hp⟩
      · simp only [if_neg hp]
        intro h
        obtain ⟨hmem, hrest⟩ := ih h
        exact ⟨List.mem_cons_of_mem _ hmem, hrest⟩

/-- The binary search preserves the invariant that the current
`first_visible` day has a successful lookup and a true predicate, and never
moves it later. -/
theorem binSearch_good (getRaDec : ℕ → Option (ℚ × ℚ))
    (pred : ℚ → ℚ → ℕ → Bool) :
    ∀ lo hi : ℕ,
      (∃ ra dec, getRaDec hi = some (ra, dec) ∧ pred ra dec hi = true) →
      (binSearch getRaDec pred lo hi).1 ≤ hi ∧
        ∃ ra dec, getRaDec (binSearch getRaDec pred lo hi).1 = some (ra, dec) ∧
          pred ra dec (binSearch getRaDec pred lo hi).1 = true := by
  intro lo hi
  induction lo, hi using binSearch.induct getRaDec pred with
  | case1 lo hi h mid hg ih =>
    intro hgood
    rw [binSearch]
    simp only [dif_pos h, hg]
    obtain ⟨h1, h2⟩ := ih hgood
    exact ⟨h1, h2⟩
  | case2 lo hi h mid ra dec hg hp ih =>
    intro hgood
    rw [binSearch]
    simp only [dif_pos h, hg, hp, if_true]
    obtain ⟨h1, h2⟩ := ih ⟨ra, dec, hg, hp⟩
    have hmid : mid = (lo + hi) / 2 := rfl
    exact ⟨le_trans h1 (by omega), h2⟩
  | case3 lo hi h mid ra dec hg hp ih =>
    intro hgood
    rw [binSearch]
    simp only [dif_pos h, hg, hp, if_false]
    obtain ⟨h1, h2⟩ := ih hgood
    exact ⟨h1, h2⟩
  | case4 lo hi h =>
    intro hgood
    rw [binSearch]
    simp only [dif_neg h]
    exact ⟨le_refl hi, hgood⟩

theorem checkDays_le {m d : ℕ} (h : d ∈ checkDays m) : d ≤ m := by
  unfold checkDays at h
  have := List.mem_filter.mp h
  simpa using this.2

theorem check_visibility_for_night_snd (calcVis : ℚ → ℚ → ℕ → ObjectVisibility)
    (lat ra dec : ℚ) (d : ℕ) (ma : ℚ)
    (h : (check_visibility_for_night calcVis lat ra dec d ma).1 = true) :
    (check_visibility_for_night calcVis lat ra dec d ma).2 =
      some (calcVis ra dec d) := by
  unfold check_visibility_for_night at h ⊢
  by_cases hq : (can_object_ever_be_visible dec lat ma).1 = false
  · simp [hq] at h
  · simp [hq]

theorem check_optimal_for_night_snd (calcVis : ℚ → ℚ → ℕ → ObjectVisibility)
    (lat ra dec : ℚ) (d : ℕ) (oa : ℚ)
    (h : (check_optimal_for_night calcVis lat ra dec d oa).1 = true) :
    (check_optimal_for_night calcVis lat ra dec d oa).2 =
      some (calcVis ra dec d) := by
  unfold check_optimal_for_night at h ⊢
  by_cases hq : (can_object_reach_optimal dec lat oa).1 = false
  · simp [hq] at h
  · simp [hq]

theorem find_next_visible_night_characterization
    (getRaDec : ℕ → Option (ℚ × ℚ)) (calcVis : ℚ → ℚ → ℕ → ObjectVisibility)
    (nightInfoAt : ℕ → NightInfo) (lat : ℚ) (m : ℕ) :
    (find_next_visible_night getRaDec calcVis nightInfoAt lat m = none ↔
      ∀ d ∈ checkDays m, ∀ ra dec, getRaDec d = some (ra, dec) →
        (check_visibility_for_night calcVis lat ra dec d MIN_ALTITUDE).1 =
          false) ∧
    (∀ d n v,
      find_next_visible_night getRaDec calcVis nightInfoAt lat m =
        some (d, n, v) →
      d ≤ m ∧ ∃ ra dec, getRaDec d = some (ra, dec) ∧
        (check_visibility_for_night calcVis lat ra dec d MIN_ALTITUDE).1 =
          true) := by
  unfold find_next_visible_night find_next_visible_night_traced
  cases he : (expProbe getRaDec
      (fun ra dec d =>
        (check_visibility_for_night calcVis lat ra dec d MIN_ALTITUDE).1)
      (checkDays m) 0).2.1 with
  | none =>
    simp only [he]
    constructor
    · constructor
      · intro _ d hd ra dec hg
        exact expProbe_none_iff.mp he d hd ra dec hg
      · intro _
        trivial
    · intro d n v h
      exact absurd h (by simp)
  | some fv₀ =>
    obtain ⟨hmem, ra₀, dec₀, hg₀, hp₀⟩ := expProbe_some he
    obtain ⟨hle, ra₁, dec₁, hg₁, hp₁⟩ :=
      binSearch_good getRaDec
        (fun ra dec d =>
          (check_visibility_for_night calcVis lat ra dec d MIN_ALTITUDE).1)
        (expProbe getRaDec
          (fun ra dec d =>
            (check_visibility_for_night calcVis lat ra dec d MIN_ALTITUDE).1)
          (checkDays m) 0).1 fv₀ ⟨ra₀, dec₀, hg₀, hp₀⟩
    have hv := check_visibility_for_night_snd calcVis lat ra₁ dec₁ _
      MIN_ALTITUDE hp₁
    simp only [he, hg₁, hv]
    constructor
    · constructor
      · intro h
        exact absurd h (by simp)
      · intro h
        have := h fv₀ hmem ra₀ dec₀ hg₀
        rw [hp₀] at this
        exact absurd this (by simp)
    · intro d n v h
      simp only [Option.some.injEq, Prod.mk.injEq] at h
      obtain ⟨rfl, -, rfl⟩ := h
      exact ⟨le_trans hle (checkDays_le hmem), ra₁, dec₁, hg₁, hp₁⟩

theorem find_next_optimal_night_characterization
    (getRaDec : ℕ → Option (ℚ × ℚ)) (calcVis : ℚ → ℚ → ℕ → ObjectVisibility)
    (nightInfoAt : ℕ → NightInfo) (lat : ℚ) (m : ℕ) :
    (find_next_optimal_night getRaDec calcVis nightInfoAt lat m = none ↔
      ∀ d ∈ checkDays m, ∀ ra dec, getRaDec d = some (ra, dec) →
        (check_optimal_for_night calcVis lat ra dec d OPTIMAL_ALTITUDE).1 =
          false) ∧
    (∀ d n v,
      find_next_optimal_night getRaDec calcVis nightInfoAt lat m =
        some (d, n, v) →
      d ≤ m ∧ ∃ ra dec, getRaDec d = some (ra, dec) ∧
        (check_optimal_for_night calcVis lat ra dec d OPTIMAL_ALTITUDE).1 =
          true) := by
  unfold find_next_optimal_night find_next_optimal_night_traced
  cases he : (expProbe getRaDec
      (fun ra dec d =>
        (check_optimal_for_night calcVis lat ra dec d OPTIMAL_ALTITUDE).1)
      (checkDays m) 0).2.1 with
  | none =>
    simp only [he]
    constructor
    · constructor
      · intro _ d hd ra dec hg
        exact expProbe_none_iff.mp he d hd ra dec hg
      · intro _
        trivial
    · intro d n v h
      exact absurd h (by simp)
  | some fv₀ =>
    obtain ⟨hmem, ra₀, dec₀, hg₀, hp₀⟩ := expProbe_some he
    obtain ⟨hle, ra₁, dec₁, hg₁, hp₁⟩ :=
      binSearch_good getRaDec
        (fun ra dec d =>
          (check_optimal_for_night calcVis lat ra dec d OPTIMAL_ALTITUDE).1)
        (expProbe getRaDec
          (fun ra dec d =>
            (check_optimal_for_night calcVis lat ra dec d OPTIMAL_ALTITUDE).1)
          (checkDays m) 0).1 fv₀ ⟨ra₀, dec₀, hg₀, hp₀⟩
    have hv := check_optimal_for_night_snd calcVis lat ra₁ dec₁ _
      OPTIMAL_ALTITUDE hp₁
    simp only [he, hg₁, hv]
    constructor
    · constructor
      · intro h
        exact absurd h (by simp)
      · intro h
        have := h fv₀ hmem ra₀ dec₀ hg₀
        rw [hp₀] at this
        exact absurd this (by simp)
    · intro d n v h
      simp only [Option.some.injEq, Prod.mk.injEq] at h
      obtain ⟨rfl, -, rfl⟩ := h
      exact ⟨le_trans hle (checkDays_le hmem), ra₁, dec₁, hg₁, hp₁⟩

/-- C4: in `find_next_visible_night` and `find_next_optimal_night`, a date
whose position lookup returns `None` never aborts the search: the search
returns "not found" exactly when no probed date with a successful lookup
satisfies the predicate, and a returned date always has a successful lookup,
a true predicate, and lies within the horizon. -/
theorem find_next_night_failed_lookup_is_nonmatch :
    ∀ (getRaDec : ℕ → Option (ℚ × ℚ))
      (calcVis : ℚ → ℚ → ℕ → ObjectVisibility)
      (nightInfoAt : ℕ → NightInfo) (lat : ℚ) (m : ℕ),
      ((find_next_visible_night getRaDec calcVis nightInfoAt lat m = none ↔
        ∀ d ∈ checkDays m, ∀ ra dec, getRaDec d = some (ra, dec) →
          (check_visibility_for_night calcVis lat ra dec d
            MIN_ALTITUDE).1 = false) ∧
      (∀ d n v,
        find_next_visible_night getRaDec calcVis nightInfoAt lat m =
          some (d, n, v) →
        d ≤ m ∧ ∃ ra dec, getRaDec d = some (ra, dec) ∧
          (check_visibility_for_night calcVis lat ra dec d
            MIN_ALTITUDE).1 = true)) ∧
      ((find_next_optimal_night getRaDec calcVis nightInfoAt lat m = none ↔
        ∀ d ∈ checkDays m, ∀ ra dec, getRaDec d = some (ra, dec) →
          (check_optimal_for_night calcVis lat ra dec d
            OPTIMAL_ALTITUDE).1 = false) ∧
      (∀ d n v,
        find_next_optimal_night getRaDec calcVis nightInfoAt lat m =
          some (d, n, v) →
        d ≤ m ∧ ∃ ra dec, getRaDec d = some (ra, dec) ∧
          (check_optimal_for_night calcVis lat ra dec d
            OPTIMAL_ALTITUDE).1 = true)) :=
  fun getRaDec calcVis nightInfoAt lat m =>
    ⟨find_next_visible_night_characterization getRaDec calcVis nightInfoAt
        lat m,
      find_next_optimal_night_characterization getRaDec calcVis nightInfoAt
        lat m⟩

/-- C4 witness: with an oracle whose position lookup fails on every date,
the search completes (returning "not found") rather than aborting. -/
theorem find_next_night_failed_lookup_is_nonmatch_witness :
    find_next_visible_night (fun _ => none)
      (fun _ _ _ => zeroVisibility "search-object" "dso")
      (fun _ => ⟨0, none, none, none, none, 0, 0, none, none⟩) 0 365 =
      none :=
  (find_next_night_failed_lookup_is_nonmatch (fun _ => none)
    (fun _ _ _ => zeroVisibility "search-object" "dso")
    (fun _ => ⟨0, none, none, none, none, 0, 0, none, none⟩) 0 365).1.1.mpr
    (by
      intro d hd ra dec h
      exact absurd h (by simp))

/-- Trace facts for the exponential probe: the evaluated offsets are probes,
are pairwise distinct, each one is at most the final `last_invisible` unless
it is the found offset, and `last_invisible` never decreases (probes are
assumed increasing and at least the initial `last_invisible`, as in the
source where the probe list is increasing and starts from offset 0). -/
theorem expProbe_trace {getRaDec : ℕ → Option (ℚ × ℚ)}
    {pred : ℚ → ℚ → ℕ → Bool} :
    ∀ {probes : List ℕ}, probes.Pairwise (· < ·) → ∀ {li : ℕ},
      (∀ t ∈ probes, li ≤ t) →
      (expProbe getRaDec pred probes li).2.2.Nodup ∧
      (∀ t ∈ (expProbe getRaDec pred probes li).2.2, t ∈ probes) ∧
      (∀ t ∈ (expProbe getRaDec pred probes li).2.2,
        t ≤ (expProbe getRaDec pred probes li).1 ∨
          (expProbe getRaDec pred probes li).2.1 = some t) ∧
      li ≤ (expProbe getRaDec pred probes li).1 := by
  intro probes
  induction probes with
  | nil => intro _ li _; simp [expProbe]
  | cons d rest ih =>
    intro hpw li hli
    have hdlt : ∀ t ∈ rest, d < t := fun t ht =>
      List.rel_of_pairwise_cons hpw ht
    have htail := List.Pairwise.of_cons hpw
    have hlid : li ≤ d := hli d (List.mem_cons_self _ _)
    simp only [expProbe]
    cases hg : getRaDec d with
    | none =>
      obtain ⟨h1, h2, h3, h4⟩ := ih htail
        (fun t ht => hli t (List.mem_cons_of_mem _ ht))
      exact ⟨h1, fun t ht => List.mem_cons_of_mem _ (h2 t ht), h3, h4⟩
    | some p =>
      obtain ⟨ra, dec⟩ := p
      by_cases hp : pred ra dec d
      · simp only [hp, if_true]
        refine ⟨List.nodup_singleton d, ?_, ?_, le_refl li⟩
        · intro t ht
          simp only [List.mem_singleton] at ht
          subst ht
          exact List.mem_cons_self _ _
        · intro t ht
          simp only [List.mem_singleton] at ht
          subst ht
          exact Or.inr rfl
      · simp only [if_neg hp]
        obtain ⟨h1, h2, h3, h4⟩ := ih htail
          (fun t ht => le_of_lt (hdlt t ht))
        refine ⟨?_, ?_, ?_, le_trans hlid h4⟩
        · refine List.Nodup.cons ?_ h1
          intro hd
          exact absurd rfl (ne_of_lt (hdlt d (h2 d hd)))
        · intro t ht
          rcases List.mem_cons.mp ht with rfl | ht
          · exact List.mem_cons_self _ _
          · exact List.mem_cons_of_mem _ (h2 t ht)
        · intro t ht
          rcases List.mem_cons.mp ht with rfl | ht
          · exact Or.inl h4
          · exact h3 t ht

/-- Trace facts for the binary search: evaluated midpoints are pairwise
distinct and lie strictly between the bracket ends, and the result does not
exceed `first_visible`. -/
theorem binSearch_trace_facts (getRaDec : ℕ → Option (ℚ × ℚ))
    (pred : ℚ → ℚ → ℕ → Bool) :
    ∀ lo hi : ℕ,
      (binSearch getRaDec pred lo hi).2.Nodup ∧
      (∀ t ∈ (binSearch getRaDec pred lo hi).2, lo < t ∧ t < hi) ∧
      (binSearch getRaDec pred lo hi).1 ≤ hi := by
  intro lo hi
  induction lo, hi using binSearch.induct getRaDec pred with
  | case1 lo hi h mid hg ih =>
    rw [binSearch]
    simp only [dif_pos h, hg]
    obtain ⟨h1, h2, h3⟩ := ih
    have hmid : mid = (lo + hi) / 2 := rfl
    refine ⟨h1, ?_, h3⟩
    intro t ht
    obtain ⟨ht1, ht2⟩ := h2 t ht
    omega
  | case2 lo hi h mid ra dec hg hp ih =>
    rw [binSearch]
    simp only [dif_pos h, hg, hp, if_true]
    obtain ⟨h1, h2, h3⟩ := ih
    have hmid : mid = (lo + hi) / 2 := rfl
    refine ⟨?_, ?_, le_trans h3 (by omega)⟩
    · refine List.Nodup.cons ?_ h1
      intro hd
      obtain ⟨hd1, hd2⟩ := h2 mid hd
      omega
    · intro t ht
      rcases List.mem_cons.mp ht with rfl | ht
      · omega
      · obtain ⟨ht1, ht2⟩ := h2 t ht
        omega
  | case3 lo hi h mid ra dec hg hp ih =>
    rw [binSearch]
    simp only [dif_pos h, hg, hp, if_false]
    obtain ⟨h1, h2, h3⟩ := ih
    have hmid : mid = (lo + hi) / 2 := rfl
    refine ⟨?_, ?_, h3⟩
    · refine List.Nodup.cons ?_ h1
      intro hd
      obtain ⟨hd1, hd2⟩ := h2 mid hd
      omega
    · intro t ht
      rcases List.mem_cons.mp ht with rfl | ht
      · omega
      · obtain ⟨ht1, ht2⟩ := h2 t ht
        omega
  | case4 lo hi h =>
    rw [binSearch]
    simp only [dif_neg h]
    exact ⟨List.nodup_nil, by simp, le_refl hi⟩

/-- C5 (amended): within one invocation of `find_next_visible_night`, the
exploration (exponential probe plus binary search) evaluates the visibility
predicate at most once per date, and the returned date is evaluated once
more to produce the final result — so no date is evaluated more than twice,
and when the search returns "not found" no date is evaluated more than
once. -/
theorem find_next_visible_night_eval_count_bound :
    ∀ (getRaDec : ℕ → Option (ℚ × ℚ))
      (calcVis : ℚ → ℚ → ℕ → ObjectVisibility)
      (nightInfoAt : ℕ → NightInfo) (lat : ℚ) (m d : ℕ),
      List.count d
        (find_next_visible_night_traced getRaDec calcVis nightInfoAt
          lat m).2 ≤ 2 ∧
      ((find_next_visible_night_traced getRaDec calcVis nightInfoAt
          lat m).1 = none →
        List.count d
          (find_next_visible_night_traced getRaDec calcVis nightInfoAt
            lat m).2 ≤ 1) := by
  intro getRaDec calcVis nightInfoAt lat m d
  have hpwcd : (checkDays m).Pairwise (· < ·) :=
    List.Pairwise.filter _
      (by decide : List.Pairwise (· < ·) [0, 1, 7, 14, 30, 60, 90, 180, 365])
  obtain ⟨ha1, ha2, ha3, ha4⟩ := @expProbe_trace getRaDec
    (fun ra dec d' =>
      (check_visibility_for_night calcVis lat ra dec d' MIN_ALTITUDE).1)
    (checkDays m) hpwcd 0 (fun t _ => Nat.zero_le t)
  unfold find_next_visible_night_traced
  cases he : (expProbe getRaDec
      (fun ra dec d' =>
        (check_visibility_for_night calcVis lat ra dec d' MIN_ALTITUDE).1)
      (checkDays m) 0).2.1 with
  | none =>
    simp only [he]
    have h1 := List.nodup_iff_count_le_one.mp ha1 d
    exact ⟨le_trans h1 (by norm_num), fun _ => h1⟩
  | some fv₀ =>
    obtain ⟨hmem, ra₀, dec₀, hg₀, hp₀⟩ := expProbe_some he
    obtain ⟨hb1, hb2, hb3⟩ := binSearch_trace_facts getRaDec
      (fun ra dec d' =>
        (check_visibility_for_night calcVis lat ra dec d' MIN_ALTITUDE).1)
      (expProbe getRaDec
        (fun ra dec d' =>
          (check_visibility_for_night calcVis lat ra dec d' MIN_ALTITUDE).1)
        (checkDays m) 0).1 fv₀
    obtain ⟨hle, ra₁, dec₁, hg₁, hp₁⟩ := binSearch_good getRaDec
      (fun ra dec d' =>
        (check_visibility_for_night calcVis lat ra dec d' MIN_ALTITUDE).1)
      (expProbe getRaDec
        (fun ra dec d' =>
          (check_visibility_for_night calcVis lat ra dec d' MIN_ALTITUDE).1)
        (checkDays m) 0).1 fv₀ ⟨ra₀, dec₀, hg₀, hp₀⟩
    have hv := check_visibility_for_night_snd calcVis lat ra₁ dec₁ _
      MIN_ALTITUDE hp₁
    simp only [he, hg₁, hv]
    have hnd : ((expProbe getRaDec
        (fun ra dec d' =>
          (check_visibility_for_night calcVis lat ra dec d' MIN_ALTITUDE).1)
        (checkDays m) 0).2.2 ++
        (binSearch getRaDec
          (fun ra dec d' =>
            (check_visibility_for_night calcVis lat ra dec d' MIN_ALTITUDE).1)
          (expProbe getRaDec
            (fun ra dec d' =>
              (check_visibility_for_night calcVis lat ra dec d'
                MIN_ALTITUDE).1)
            (checkDays m) 0).1 fv₀).2).Nodup := by
      refine List.Nodup.append ha1 hb1 ?_
      rw [List.disjoint_left]
      intro a hatr hbin
      obtain ⟨hlo, hhi⟩ := hb2 a hbin
      rcases ha3 a hatr with h | h
      · omega
      · rw [he] at h
        injection h with h
        omega
    have hcnt := List.nodup_iff_count_le_one.mp hnd d
    constructor
    · have hsingle : ∀ (x : ℕ) (xs : List ℕ),
          List.count d (xs ++ [x]) ≤ List.count d xs + 1 := by
        intro x xs
        rw [List.count_append]
        have h1 : List.count d [x] ≤ 1 := by
          rw [List.count_singleton]
          split <;> omega
        omega
      exact le_trans (hsingle _ _) (by omega)
    · intro h
      exact absurd h (by simp)

/-- C5 counterexample: with a position oracle defined on every date and an
always-visible object, day 0 is evaluated by the exponential probe and then
re-evaluated when the result is produced — two predicate evaluations (and
two oracle queries) for the same date in one search call, refuting
"at most once per date". -/
theorem find_next_visible_night_reevaluates_found_date :
    List.count 0
      (find_next_visible_night_traced (fun _ => some (0, 0))
        (fun _ _ _ => ⟨"search-object", "dso", true, 50, none, none, none,
          none, none, none, none, none, false⟩)
        (fun _ => ⟨0, none, none, none, none, 0, 0, none, none⟩)
        0 365).2 = 2 := by
  have hvis : ∀ d : ℕ, check_visibility_for_night
      (fun _ _ _ => (⟨"search-object", "dso", true, 50, none, none, none,
        none, none, none, none, none, false⟩ : ObjectVisibility))
      0 0 0 d MIN_ALTITUDE =
      (true, some ⟨"search-object", "dso", true, 50, none, none, none,
        none, none, none, none, none, false⟩) := by
    intro d
    norm_num [check_visibility_for_night, can_object_ever_be_visible,
      MIN_ALTITUDE]
  have hexp : expProbe (fun _ => some (0, 0))
      (fun ra dec d' => (check_visibility_for_night
        (fun _ _ _ => (⟨"search-object", "dso", true, 50, none, none, none,
          none, none, none, none, none, false⟩ : ObjectVisibility))
        0 ra dec d' MIN_ALTITUDE).1)
      (checkDays 365) 0 = (0, some 0, [0]) := by
    have hcd : checkDays 365 = [0, 1, 7, 14, 30, 60, 90, 180, 365] := rfl
    rw [hcd]
    simp only [expProbe, hvis]
    norm_num
  have hbin : binSearch (fun _ => some (0, 0))
      (fun ra dec d' => (check_visibility_for_night
        (fun _ _ _ => (⟨"search-object", "dso", true, 50, none, none, none,
          none, none, none, none, none, false⟩ : ObjectVisibility))
        0 ra dec d' MIN_ALTITUDE).1)
      0 0 = (0, []) := by
    rw [binSearch]
    norm_num
  simp only [find_next_visible_night_traced, hexp, hbin, hvis]
  rfl

/-- C5 witness: the evaluation-count bound applied to a concrete search
whose result is "not found", discharging the hypothesis of its second
conjunct. -/
theorem find_next_visible_night_eval_count_bound_witness :
    List.count 5
      (find_next_visible_night_traced (fun _ => none)
        (fun _ _ _ => zeroVisibility "search-object" "dso")
        (fun _ => ⟨0, none, none, none, none, 0, 0, none, none⟩)
        0 365).2 ≤ 1 :=
  (find_next_visible_night_eval_count_bound (fun _ => none)
    (fun _ _ _ => zeroVisibility "search-object" "dso")
    (fun _ => ⟨0, none, none, none, none, 0, 0, none, none⟩)
    0 365 5).2 (by rfl)

theorem altitude_score_bounds (max_altitude : ℚ) (min_airmass : Option ℚ) :
    0 ≤ calculate_altitude_score max_altitude min_airmass DEFAULT_WEIGHTS ∧
      calculate_altitude_score max_altitude min_airmass DEFAULT_WEIGHTS ≤ 38 := by
  unfold calculate_altitude_score
  cases min_airmass <;> simp [DEFAULT_WEIGHTS] <;> split_ifs <;> norm_num

theorem moon_sensitivity_bounds (s : String) :
    0 ≤ DSO_MOON_SENSITIVITY s ∧ DSO_MOON_SENSITIVITY s ≤ 1 := by
  unfold DSO_MOON_SENSITIVITY
  split <;> norm_num

theorem moon_score_bounds (moon_separation : Option ℚ)
    (moon_illumination : ℚ) (object_type dso_subtype : String)
    (h0 : 0 ≤ moon_illumination) (h100 : moon_illumination ≤ 100) :
    0 ≤ calculate_moon_interference_score moon_separation moon_illumination
        object_type dso_subtype DEFAULT_WEIGHTS ∧
      calculate_moon_interference_score moon_separation moon_illumination
        object_type dso_subtype DEFAULT_WEIGHTS ≤ 30 := by
  unfold calculate_moon_interference_score
  by_cases hpl : object_type = "planet"
  · simp [hpl, DEFAULT_WEIGHTS]
    norm_num
  · by_cases hil : moon_illumination < 5
    · simp [hpl, hil, DEFAULT_WEIGHTS]
    · simp only [hpl, hil, if_false, if_neg]
      have hsens : 0 ≤ (if object_type = "dso" ∧ dso_subtype ≠ "" then
            DSO_MOON_SENSITIVITY dso_subtype
          else if object_type = "comet" then 0.7
          else if object_type = "milky_way" then 1.0
          else 0.5) ∧
          (if object_type = "dso" ∧ dso_subtype ≠ "" then
            DSO_MOON_SENSITIVITY dso_subtype
          else if object_type = "comet" then 0.7
          else if object_type = "milky_way" then 1.0
          else 0.5) ≤ 1 := by
        split_ifs with h1 h2 h3 <;>
          first
            | exact moon_sensitivity_bounds dso_subtype
            | norm_num
      have hsep : 0 ≤ (match moon_separation with
            | none => (1.0 : ℚ)
            | some sep =>
              if 90 < sep then 0.3
              else if 60 < sep then 0.5
              else if 30 < sep then 0.7
              else 1.0) ∧
          (match moon_separation with
            | none => (1.0 : ℚ)
            | some sep =>
              if 90 < sep then 0.3
              else if 60 < sep then 0.5
              else if 30 < sep then 0.7
              else 1.0) ≤ 1 := by
        cases moon_separation with
        | none => norm_num
        | some sep =>
          have hm : (match some sep with
              | none => (1.0 : ℚ)
              | some s =>
                if 90 < s then 0.3
                else if 60 < s then 0.5
                else if 30 < s then 0.7
                else 1.0) =
              if 90 < sep then 0.3
              else if 60 < sep then 0.5
              else if 30 < sep then 0.7
              else 1.0 := rfl
          rw [hm]
          split_ifs <;> norm_num
      obtain ⟨hs0, hs1⟩ := hsens
      obtain ⟨hp0, hp1⟩ := hsep
      have hm0 : 0 ≤ moon_illumination / 100 := by positivity
      have hm1 : moon_illumination / 100 ≤ 1 := by linarith [h100]
      set sens := (if object_type = "dso" ∧ dso_subtype ≠ "" then
          DSO_MOON_SENSITIVITY dso_subtype
        else if object_type = "comet" then 0.7
        else if object_type = "milky_way" then 1.0
        else 0.5)
      set sep := (match moon_separation with
        | none => (1.0 : ℚ)
        | some sep =>
          if 90 < sep then 0.3
          else if 60 < sep then 0.5
          else if 30 < sep then 0.7
          else 1.0)
      have hint0 : 0 ≤ moon_illumination / 100 * sens * sep :=
        mul_nonneg (mul_nonneg hm0 hs0) hp0
      have hint1 : moon_illumination / 100 * sens * sep ≤ 1 := by
        have h1 : moon_illumination / 100 * sens ≤ 1 :=
          le_trans (mul_le_of_le_one_right hm0 hs1) hm1
        exact le_trans (mul_le_of_le_one_right
          (mul_nonneg hm0 hs0) hp1) h1
      constructor
      · have : 1 - moon_illumination / 100 * sens * sep ≥ 0 := by linarith
        simp [DEFAULT_WEIGHTS]
        nlinarith
      · simp [DEFAULT_WEIGHTS]
        nlinarith

theorem timing_score_bounds (max_altitude_time : Option PyDateTime)
    (window_start window_end : PyDateTime) :
    0 ≤ calculate_peak_timing_score max_altitude_time window_start
        window_end DEFAULT_WEIGHTS ∧
      calculate_peak_timing_score max_altitude_time window_start window_end
        DEFAULT_WEIGHTS ≤ 15 := by
  unfold calculate_peak_timing_score
  cases max_altitude_time <;> simp [DEFAULT_WEIGHTS] <;>
    first
      | (split_ifs <;> norm_num)
      | norm_num

theorem weather_product_bound {b a t p w : ℚ} (hb0 : 0 ≤ b) (hb1 : b ≤ 15)
    (ha0 : 0 ≤ a) (ha1 : a ≤ 1) (ht0 : 0 ≤ t) (ht1 : t ≤ 1.05)
    (hp0 : 0 ≤ p) (hp1 : p ≤ 1) (hw0 : 0 ≤ w) (hw1 : w ≤ 1) :
    0 ≤ b * a * t * p * w ∧ b * a * t * p * w ≤ 15.75 := by
  constructor
  · exact mul_nonneg (mul_nonneg (mul_nonneg (mul_nonneg hb0 ha0) ht0)
      hp0) hw0
  · have h1 : b * a ≤ 15 := le_trans (mul_le_of_le_one_right hb0 ha1) hb1
    have h10 : 0 ≤ b * a := mul_nonneg hb0 ha0
    have h2 : b * a * t ≤ 15 * 1.05 := mul_le_mul h1 ht1 ht0 (by norm_num)
    have h20 : 0 ≤ b * a * t := mul_nonneg h10 ht0
    have h3 : b * a * t * p ≤ 15 * 1.05 :=
      le_trans (mul_le_of_le_one_right h20 hp1) h2
    have h30 : 0 ≤ b * a * t * p := mul_nonneg h20 hp0
    have h4 : b * a * t * p * w ≤ 15 * 1.05 :=
      le_trans (mul_le_of_le_one_right h30 hw1) h3
    linarith

theorem weather_score_bounds (cloud_cover aod precip_probability
    wind_gust_kmh transparency : Option ℚ) (is_deep_sky is_planet : Bool) :
    0 ≤ calculate_weather_score cloud_cover aod precip_probability
        wind_gust_kmh transparency is_deep_sky is_planet DEFAULT_WEIGHTS ∧
      calculate_weather_score cloud_cover aod precip_probability
        wind_gust_kmh transparency is_deep_sky is_planet DEFAULT_WEIGHTS ≤
        15.75 := by
  unfold calculate_weather_score
  cases cloud_cover with
  | none =>
    simp only [DEFAULT_WEIGHTS]
    norm_num
  | some clouds =>
    simp only [DEFAULT_WEIGHTS]
    refine weather_product_bound ?_ ?_ ?_ ?_ ?_ ?_ ?_ ?_ ?_ ?_
    · split_ifs <;> norm_num
    · split_ifs <;> norm_num
    · cases aod with
      | none => norm_num
      | some a => simp only; split_ifs <;> norm_num
    · cases aod with
      | none => norm_num
      | some a => simp only; split_ifs <;> norm_num
    · cases transparency with
      | none => norm_num
      | some tr => simp only; split_ifs <;> norm_num
    · cases transparency with
      | none => norm_num
      | some tr => simp only; split_ifs <;> norm_num
    · cases precip_probability with
      | none => norm_num
      | some p => simp only; split_ifs <;> norm_num
    · cases precip_probability with
      | none => norm_num
      | some p => simp only; split_ifs <;> norm_num
    · cases wind_gust_kmh with
      | none => norm_num
      | some w => simp only; split_ifs <;> norm_num
    · cases wind_gust_kmh with
      | none => norm_num
      | some w => simp only; split_ifs <;> norm_num

theorem surface_brightness_score_bounds (sb_estimate : ℚ → ℚ → ℚ)
    (surface_brightness magnitude : Option ℚ) (angular_size : ℚ) :
    0 ≤ calculate_surface_brightness_score sb_estimate surface_brightness
        magnitude angular_size DEFAULT_WEIGHTS ∧
      calculate_surface_brightness_score sb_estimate surface_brightness
        magnitude angular_size DEFAULT_WEIGHTS ≤ 20 := by
  unfold calculate_surface_brightness_score
  cases surface_brightness with
  | some sb => simp only [DEFAULT_WEIGHTS]; split_ifs <;> norm_num
  | none =>
    cases magnitude with
    | none => simp [DEFAULT_WEIGHTS]; norm_num
    | some mag => simp only [DEFAULT_WEIGHTS]; split_ifs <;> norm_num

theorem magnitude_score_bounds (magnitude : Option ℚ)
    (object_type : String) :
    0 ≤ calculate_magnitude_score magnitude object_type DEFAULT_WEIGHTS ∧
      calculate_magnitude_score magnitude object_type DEFAULT_WEIGHTS ≤
        15 := by
  unfold calculate_magnitude_score
  cases magnitude with
  | none => simp [DEFAULT_WEIGHTS]; norm_num
  | some mag => simp only [DEFAULT_WEIGHTS]; split_ifs <;> norm_num

theorem type_suitability_score_bounds (object_type dso_subtype : String)
    (moon_illumination : ℚ) :
    0 ≤ calculate_type_suitability_score object_type dso_subtype
        moon_illumination DEFAULT_WEIGHTS ∧
      calculate_type_suitability_score object_type dso_subtype
        moon_illumination DEFAULT_WEIGHTS ≤ 15 := by
  unfold calculate_type_suitability_score
  simp only [DEFAULT_WEIGHTS]
  split_ifs <;> norm_num

theorem transient_bonus_bounds (object_type : String)
    (is_interstellar is_near_perihelion : Bool) :
    0 ≤ calculate_transient_bonus object_type is_interstellar
        is_near_perihelion DEFAULT_WEIGHTS ∧
      calculate_transient_bonus object_type is_interstellar
        is_near_perihelion DEFAULT_WEIGHTS ≤ 25 := by
  unfold calculate_transient_bonus
  simp only [DEFAULT_WEIGHTS]
  split_ifs <;> norm_num

theorem pymod_bounds (a : ℚ) {b : ℚ} (hb : 0 < b) :
    0 ≤ pymod a b ∧ pymod a b < b := by
  unfold pymod
  have h1 : ((⌊a / b⌋ : ℤ) : ℚ) ≤ a / b := Int.floor_le _
  have h2 : a / b < ((⌊a / b⌋ : ℤ) : ℚ) + 1 := Int.lt_floor_add_one _
  have hba : b * (a / b) = a := by field_simp
  have h3 : b * ((⌊a / b⌋ : ℤ) : ℚ) ≤ a := by
    calc b * ((⌊a / b⌋ : ℤ) : ℚ) ≤ b * (a / b) :=
          mul_le_mul_of_nonneg_left h1 (le_of_lt hb)
      _ = a := hba
  have h4 : a < b * (((⌊a / b⌋ : ℤ) : ℚ) + 1) := by
    calc a = b * (a / b) := hba.symm
      _ < b * (((⌊a / b⌋ : ℤ) : ℚ) + 1) := by
          exact mul_lt_mul_of_pos_left h2 hb
  rw [mul_add, mul_one] at h4
  constructor <;> linarith

theorem seasonal_score_bounds (ra_hours : ℚ)
    (observation_date : PyDateTime) (hra0 : 0 ≤ ra_hours)
    (hra24 : ra_hours ≤ 24) :
    0 ≤ calculate_seasonal_window_score ra_hours observation_date
        DEFAULT_WEIGHTS ∧
      calculate_seasonal_window_score ra_hours observation_date
        DEFAULT_WEIGHTS ≤ 15 := by
  unfold calculate_seasonal_window_score
  simp only [DEFAULT_WEIGHTS]
  obtain ⟨hm0, hm24⟩ := pymod_bounds
    (((observation_date.yday : ℚ) - 80) / 365.25 * 24)
    (show (0 : ℚ) < 24 by norm_num)
  set sun_ra := pymod (((observation_date.yday : ℚ) - 80) / 365.25 * 24) 24
    with hsun
  have hd0 : 0 ≤ |ra_hours - sun_ra| := abs_nonneg _
  have hd24 : |ra_hours - sun_ra| ≤ 24 := by
    rw [abs_sub_le_iff]
    constructor <;> linarith
  have hrd : 0 ≤ (if 12 < |ra_hours - sun_ra| then 24 - |ra_hours - sun_ra|
        else |ra_hours - sun_ra|) ∧
      (if 12 < |ra_hours - sun_ra| then 24 - |ra_hours - sun_ra|
        else |ra_hours - sun_ra|) ≤ 12 := by
    split_ifs with h <;> constructor <;> linarith
  obtain ⟨hr0, hr12⟩ := hrd
  constructor
  · positivity
  · have : (if 12 < |ra_hours - sun_ra| then 24 - |ra_hours - sun_ra|
        else |ra_hours - sun_ra|) / 12 ≤ 1 := by
      rw [div_le_one (by norm_num)]
      linarith
    nlinarith

theorem popularity_score_bounds (common_name : String) :
    0 ≤ calculate_popularity_score common_name DEFAULT_WEIGHTS ∧
      calculate_popularity_score common_name DEFAULT_WEIGHTS ≤ 10 := by
  unfold calculate_popularity_score
  simp only [DEFAULT_WEIGHTS]
  split_ifs <;> norm_num

/-- C7 counterexample: for a deep-sky object under 5% cloud cover and
excellent transparency (85), the weather sub-score is
`15 × 1.05 = 15.75`, strictly above the weather weight 15 — the claimed
per-factor bound `[0, weight]` fails for the weather factor. -/
theorem weather_score_exceeds_weight :
    (score_object (fun _ _ => 0) (mkVisibility "m31" 50) "dso" "galaxy"
      0 ⟨0, 100⟩ ⟨0, 0⟩ ⟨6, 0⟩ (some 5) none none none (some 85) 0 "" none
      1 false DEFAULT_WEIGHTS).score_breakdown.weather = 15.75 ∧
    ¬ ((score_object (fun _ _ => 0) (mkVisibility "m31" 50) "dso" "galaxy"
      0 ⟨0, 100⟩ ⟨0, 0⟩ ⟨6, 0⟩ (some 5) none none none (some 85) 0 "" none
      1 false DEFAULT_WEIGHTS).score_breakdown.weather ≤
        DEFAULT_WEIGHTS.weather_weight) := by
  have h : (score_object (fun _ _ => 0) (mkVisibility "m31" 50) "dso"
      "galaxy" 0 ⟨0, 100⟩ ⟨0, 0⟩ ⟨6, 0⟩ (some 5) none none none (some 85) 0
      "" none 1 false DEFAULT_WEIGHTS).score_breakdown.weather =
      calculate_weather_score (some 5) none none none (some 85) true false
        DEFAULT_WEIGHTS := rfl
  rw [h]
  unfold calculate_weather_score
  norm_num [DEFAULT_WEIGHTS]

/-- C7 (amended): for every `score_object` call with the default weights
(and a moon-illumination percentage in `[0, 100]` and a right ascension in
`[0, 24]` hours), nine of the ten sub-scores lie in `[0, weight]`; the
weather sub-score lies in `[0, 1.05 × weight]` (the transparency bonus can
push it 5% past its weight); and the total score — the exact sum of the ten
sub-scores — lies in `[0, 200]`. -/
theorem score_object_factor_bounds :
    ∀ (sb_estimate : ℚ → ℚ → ℚ) (visibility : VisibilityInfo)
      (category subtype : String) (moon_illumination : ℚ)
      (observation_date window_start window_end : PyDateTime)
      (cloud_cover aod precip_probability wind_gust_kmh
        transparency : Option ℚ)
      (ra_hours : ℚ) (common_name : String)
      (surface_brightness : Option ℚ) (angular_size : ℚ)
      (is_interstellar : Bool),
      0 ≤ moon_illumination → moon_illumination ≤ 100 →
      0 ≤ ra_hours → ra_hours ≤ 24 →
      ∀ so, so = score_object sb_estimate visibility category subtype
        moon_illumination observation_date window_start window_end
        cloud_cover aod precip_probability wind_gust_kmh transparency
        ra_hours common_name surface_brightness angular_size
        is_interstellar DEFAULT_WEIGHTS →
      (0 ≤ so.score_breakdown.altitude ∧
        so.score_breakdown.altitude ≤ 40) ∧
      (0 ≤ so.score_breakdown.moon ∧ so.score_breakdown.moon ≤ 30) ∧
      (0 ≤ so.score_breakdown.timing ∧ so.score_breakdown.timing ≤ 15) ∧
      (0 ≤ so.score_breakdown.weather ∧
        so.score_breakdown.weather ≤ 15.75) ∧
      (0 ≤ so.score_breakdown.surface_brightness ∧
        so.score_breakdown.surface_brightness ≤ 20) ∧
      (0 ≤ so.score_breakdown.magnitude ∧
        so.score_breakdown.magnitude ≤ 15) ∧
      (0 ≤ so.score_breakdown.type_suitability ∧
        so.score_breakdown.type_suitability ≤ 15) ∧
      (0 ≤ so.score_breakdown.transient ∧
        so.score_breakdown.transient ≤ 25) ∧
      (0 ≤ so.score_breakdown.seasonal ∧
        so.score_breakdown.seasonal ≤ 15) ∧
      (0 ≤ so.score_breakdown.novelty ∧ so.score_breakdown.novelty ≤ 10) ∧
      (0 ≤ so.total_score ∧ so.total_score ≤ 200) := by
  intro sb_estimate visibility category subtype moon_illumination
    observation_date window_start window_end cloud_cover aod
    precip_probability wind_gust_kmh transparency ra_hours common_name
    surface_brightness angular_size is_interstellar hm0 hm100 hr0 hr24 so
    hso
  subst hso
  have h1 := altitude_score_bounds visibility.max_altitude
    visibility.min_airmass
  have h2 := moon_score_bounds visibility.moon_separation moon_illumination
    category subtype hm0 hm100
  have h3 := timing_score_bounds visibility.max_altitude_time window_start
    window_end
  have h4 := weather_score_bounds cloud_cover aod precip_probability
    wind_gust_kmh transparency
    (decide (category = "dso" ∨ category = "milky_way" ∨
      category = "comet"))
    (decide (category = "planet"))
  have h5 := surface_brightness_score_bounds sb_estimate surface_brightness
    visibility.magnitude angular_size
  have h6 := magnitude_score_bounds visibility.magnitude category
  have h7 := type_suitability_score_bounds category subtype
    moon_illumination
  have h8 := transient_bonus_bounds category is_interstellar false
  have h9 := seasonal_score_bounds ra_hours observation_date hr0 hr24
  have h10 := popularity_score_bounds common_name
  refine ⟨⟨h1.1, le_trans h1.2 (by norm_num)⟩, h2, h3, h4, h5, h6, h7, h8,
    h9, h10, ?_, ?_⟩
  · show 0 ≤ calculate_altitude_score _ _ _ + _ + _ + _ + _ + _ + _ + _ +
      _ + _
    obtain ⟨a, -⟩ := h1
    obtain ⟨b, -⟩ := h2
    obtain ⟨c, -⟩ := h3
    obtain ⟨d, -⟩ := h4
    obtain ⟨e, -⟩ := h5
    obtain ⟨f, -⟩ := h6
    obtain ⟨g, -⟩ := h7
    obtain ⟨h, -⟩ := h8
    obtain ⟨i, -⟩ := h9
    obtain ⟨j, -⟩ := h10
    linarith
  · show calculate_altitude_score _ _ _ + _ + _ + _ + _ + _ + _ + _ + _ +
      _ ≤ 200
    obtain ⟨-, a⟩ := h1
    obtain ⟨-, b⟩ := h2
    obtain ⟨-, c⟩ := h3
    obtain ⟨-, d⟩ := h4
    obtain ⟨-, e⟩ := h5
    obtain ⟨-, f⟩ := h6
    obtain ⟨-, g⟩ := h7
    obtain ⟨-, h⟩ := h8
    obtain ⟨-, i⟩ := h9
    obtain ⟨-, j⟩ := h10
    linarith

/-- C7 witness: the bounds applied at one concrete scoring call. -/
theorem score_object_factor_bounds_witness :
    0 ≤ (score_object (fun _ _ => 0) (mkVisibility "m31" 50) "dso" "galaxy"
      20 ⟨0, 100⟩ ⟨0, 0⟩ ⟨6, 0⟩ none none none none none 12 "M31" none 1
      false DEFAULT_WEIGHTS).total_score ∧
    (score_object (fun _ _ => 0) (mkVisibility "m31" 50) "dso" "galaxy"
      20 ⟨0, 100⟩ ⟨0, 0⟩ ⟨6, 0⟩ none none none none none 12 "M31" none 1
      false DEFAULT_WEIGHTS).total_score ≤ 200 :=
  (score_object_factor_bounds (fun _ _ => 0) (mkVisibility "m31" 50) "dso"
    "galaxy" 20 ⟨0, 100⟩ ⟨0, 0⟩ ⟨6, 0⟩ none none none none none 12 "M31"
    none 1 false (by norm_num) (by norm_num) (by norm_num) (by norm_num) _
    rfl).2.2.2.2.2.2.2.2.2.2

theorem fillLoop_cap_invariant (N cap : ℕ) (thr : ℚ) (s : String) :
    ∀ (rest sel : List ScoredObject) (counts : String → ℕ),
      (∀ t, counts t = sel.countP (fun o => o.subtype = t)) →
      (sel.countP (fun o => o.subtype = s) ≤ cap ∨
        ∃ o ∈ sel, o.subtype = s ∧ thr ≤ o.total_score) →
      ((fillLoop N cap thr rest sel counts).countP
          (fun o => o.subtype = s) ≤ cap ∨
        ∃ o ∈ fillLoop N cap thr rest sel counts,
          o.subtype = s ∧ thr ≤ o.total_score) := by
  intro rest
  induction rest with
  | nil => intro sel counts _ hinv; simpa [fillLoop] using hinv
  | cons o rest ih =>
    intro sel counts hcounts hinv
    simp only [fillLoop]
    by_cases hlen : N ≤ sel.length
    · simpa [hlen] using hinv
    · simp only [if_neg hlen]
      by_cases hmem : o ∈ sel
      · simpa [hmem] using ih sel counts hcounts hinv
      · simp only [if_neg hmem]
        by_cases hskip : cap ≤ counts o.subtype ∧ o.total_score < thr
        · simpa [hskip] using ih sel counts hcounts hinv
        · simp only [if_neg hskip]
          have hcounts' : ∀ t, bumpCount counts o.subtype t =
              (sel ++ [o]).countP (fun x => x.subtype = t) := by
            intro t
            rw [List.countP_append]
            unfold bumpCount
            by_cases ht : t = o.subtype
            · subst ht
              simp [hcounts o.subtype]
            · have hne : ¬ (o.subtype = t) := fun hh => ht hh.symm
              simp [ht, hcounts t, hne]
          refine ih (sel ++ [o]) (bumpCount counts o.subtype) hcounts' ?_
          by_cases hos : o.subtype = s
          · rcases not_and_or.mp hskip with hlt | hge
            · left
              rw [List.countP_append]
              have hlt' : counts o.subtype < cap := Nat.lt_of_not_le hlt
              rw [hcounts o.subtype, hos] at hlt'
              simp [hos]
              omega
            · right
              exact ⟨o, List.mem_append_right _ (List.mem_singleton_self o),
                hos, le_of_not_lt hge⟩
          · rw [List.countP_append]
            rcases hinv with hle | ⟨w, hw, hws, hwt⟩
            · left
              have : ¬ (o.subtype = s) := hos
              simp [this]
              omega
            · right
              exact ⟨w, List.mem_append_left _ hw, hws, hwt⟩

/-- C8 (amended): when at least one object meets the score floor and the
category-representation flag is off, no subtype appears in the selection
more times than the soft cap unless at least one selected instance of that
subtype scores at or above the exceptional threshold. -/
theorem select_best_objects_soft_cap :
    ∀ (objs : List ScoredObject) (N : ℕ) (min_score : ℚ) (cap : ℕ)
      (threshold : ℚ) (s : String),
      (∃ o ∈ objs, min_score ≤ o.total_score) →
      cap < (select_best_objects objs N min_score cap threshold
          false).countP (fun o => o.subtype = s) →
      ∃ o ∈ select_best_objects objs N min_score cap threshold false,
        o.subtype = s ∧ threshold ≤ o.total_score := by
  intro objs N min_score cap threshold s hsome hcap
  obtain ⟨w, hw, hwsc⟩ := hsome
  have hvne : objs.filter (fun o => min_score ≤ o.total_score) ≠ [] := by
    intro hnil
    have := List.filter_eq_nil_iff.mp hnil w hw
    simp [hwsc] at this
  unfold select_best_objects at hcap ⊢
  simp only [if_neg hvne, Bool.false_eq_true, if_false] at hcap ⊢
  set ranked := sortByScoreDesc
    (objs.filter (fun o => min_score ≤ o.total_score)) with hranked
  have hperm : (sortByScoreDesc (fillLoop N cap threshold ranked []
      (fun _ => 0))).Perm (fillLoop N cap threshold ranked []
      (fun _ => 0)) := List.perm_insertionSort _ _
  have hinv := fillLoop_cap_invariant N cap threshold s ranked []
    (fun _ => 0) (by intro t; simp) (Or.inl (by simp))
  rcases hinv with hle | ⟨o, ho, hos, hot⟩
  · exfalso
    rw [hperm.countP_eq] at hcap
    omega
  · exact ⟨o, hperm.mem_iff.mpr ho, hos, hot⟩

/-- C8 counterexample: the soft subtype cap (3) is violated with no
exceptional score in two ways.  First, in the fallback case (no object
meets the floor 60) the best-N cut ignores the cap: four below-floor
galaxies are all returned.  Second, with category representation enabled,
the category pass admits one object per category without consulting the
cap: four same-subtype objects in four distinct categories are all
selected.  In both outputs the subtype count is 4 > 3 and every score is
below the exceptional threshold 180. -/
theorem select_best_objects_cap_violated :
    ((select_best_objects [mkScored "a" "dso" "galaxy" 10,
        mkScored "b" "dso" "galaxy" 9, mkScored "c" "dso" "galaxy" 8,
        mkScored "d" "dso" "galaxy" 7] 4 60 3 180 true).countP
      (fun o => o.subtype = "galaxy") = 4 ∧
    (select_best_objects [mkScored "a" "dso" "galaxy" 10,
        mkScored "b" "dso" "galaxy" 9, mkScored "c" "dso" "galaxy" 8,
        mkScored "d" "dso" "galaxy" 7] 4 60 3 180 true).all
      (fun o => o.total_score < 180) = true) ∧
    ((select_best_objects [mkScored "p" "planet" "bright" 100,
        mkScored "q" "dso" "bright" 99, mkScored "r" "comet" "bright" 98,
        mkScored "t" "asteroid" "bright" 97] 10 60 3 180 true).countP
      (fun o => o.subtype = "bright") = 4 ∧
    (select_best_objects [mkScored "p" "planet" "bright" 100,
        mkScored "q" "dso" "bright" 99, mkScored "r" "comet" "bright" 98,
        mkScored "t" "asteroid" "bright" 97] 10 60 3 180 true).all
      (fun o => o.total_score < 180) = true) := by
  refine ⟨⟨?_, ?_⟩, ⟨?_, ?_⟩⟩ <;> decide

/-- C8 witness: the amended cap theorem applied to a concrete run in which
five exceptional (≥ 180) galaxies legitimately exceed the cap. -/
theorem select_best_objects_soft_cap_witness :
    ∃ o ∈ select_best_objects [mkScored "a" "dso" "galaxy" 190,
        mkScored "b" "dso" "galaxy" 185, mkScored "c" "dso" "galaxy" 184,
        mkScored "d" "dso" "galaxy" 183, mkScored "e" "dso" "galaxy" 182]
        5 60 3 180 false,
      o.subtype = "galaxy" ∧ (180 : ℚ) ≤ o.total_score :=
  select_best_objects_soft_cap
    [mkScored "a" "dso" "galaxy" 190, mkScored "b" "dso" "galaxy" 185,
      mkScored "c" "dso" "galaxy" 184, mkScored "d" "dso" "galaxy" 183,
      mkScored "e" "dso" "galaxy" 182] 5 60 3 180 "galaxy"
    (by decide) (by decide)

theorem categoryPass_mem (ranked : List ScoredObject) :
    ∀ (cats : List String) (sel : List ScoredObject)
      (counts : String → ℕ),
      ∀ o ∈ (categoryPass ranked cats sel counts).1, o ∈ sel ∨ o ∈ ranked := by
  intro cats
  induction cats with
  | nil => intro sel counts o ho; exact Or.inl ho
  | cons c cats ih =>
    intro sel counts o ho
    simp only [categoryPass] at ho
    cases hf : ranked.find? (fun x => x.category = c) with
    | none =>
      rw [hf] at ho
      exact ih sel counts o ho
    | some best =>
      rw [hf] at ho
      have ho2 : o ∈ (if best ∈ sel then categoryPass ranked cats sel counts
          else categoryPass ranked cats (sel ++ [best])
            (bumpCount counts best.subtype)).1 := ho
      by_cases hb : best ∈ sel
      · rw [if_pos hb] at ho2
        exact ih sel counts o ho2
      · rw [if_neg hb] at ho2
        rcases ih _ _ o ho2 with hsel | hrk
        · rcases List.mem_append.mp hsel with h | h
          · exact Or.inl h
          · simp only [List.mem_singleton] at h
            subst h
            exact Or.inr (List.mem_of_find?_eq_some hf)
        · exact Or.inr hrk

theorem categoryPass_nodup (ranked : List ScoredObject) :
    ∀ (cats : List String) (sel : List ScoredObject)
      (counts : String → ℕ),
      sel.Nodup → (categoryPass ranked cats sel counts).1.Nodup := by
  intro cats
  induction cats with
  | nil => intro sel counts h; exact h
  | cons c cats ih =>
    intro sel counts hnd
    simp only [categoryPass]
    cases hf : ranked.find? (fun x => x.category = c) with
    | none => exact ih sel counts hnd
    | some best =>
      show (if best ∈ sel then categoryPass ranked cats sel counts
        else categoryPass ranked cats (sel ++ [best])
          (bumpCount counts best.subtype)).1.Nodup
      by_cases hb : best ∈ sel
      · rw [if_pos hb]
        exact ih sel counts hnd
      · rw [if_neg hb]
        refine ih _ _ (List.Nodup.append hnd (List.nodup_singleton best) ?_)
        rw [List.disjoint_left]
        intro a ha hab
        simp only [List.mem_singleton] at hab
        subst hab
        exact hb ha

theorem fillLoop_mem (N cap : ℕ) (thr : ℚ) :
    ∀ (rest sel : List ScoredObject) (counts : String → ℕ),
      ∀ o ∈ fillLoop N cap thr rest sel counts, o ∈ sel ∨ o ∈ rest := by
  intro rest
  induction rest with
  | nil => intro sel counts o ho; exact Or.inl ho
  | cons x rest ih =>
    intro sel counts o ho
    simp only [fillLoop] at ho
    by_cases hlen : N ≤ sel.length
    · rw [if_pos hlen] at ho
      exact Or.inl ho
    · rw [if_neg hlen] at ho
      by_cases hmem : x ∈ sel
      · rw [if_pos hmem] at ho
        rcases ih sel counts o ho with h | h
        · exact Or.inl h
        · exact Or.inr (List.mem_cons_of_mem _ h)
      · rw [if_neg hmem] at ho
        by_cases hskip : cap ≤ counts x.subtype ∧ x.total_score < thr
        · rw [if_pos hskip] at ho
          rcases ih sel counts o ho with h | h
          · exact Or.inl h
          · exact Or.inr (List.mem_cons_of_mem _ h)
        · rw [if_neg hskip] at ho
          rcases ih _ _ o ho with h | h
          · rcases List.mem_append.mp h with h1 | h1
            · exact Or.inl h1
            · simp only [List.mem_singleton] at h1
              subst h1
              exact Or.inr (List.mem_cons_self _ _)
          · exact Or.inr (List.mem_cons_of_mem _ h)

theorem fillLoop_nodup (N cap : ℕ) (thr : ℚ) :
    ∀ (rest sel : List ScoredObject) (counts : String → ℕ),
      sel.Nodup → (fillLoop N cap thr rest sel counts).Nodup := by
  intro rest
  induction rest with
  | nil => intro sel counts h; exact h
  | cons x rest ih =>
    intro sel counts hnd
    simp only [fillLoop]
    by_cases hlen : N ≤ sel.length
    · rwa [if_pos hlen]
    · rw [if_neg hlen]
      by_cases hmem : x ∈ sel
      · rw [if_pos hmem]
        exact ih sel counts hnd
      · rw [if_neg hmem]
        by_cases hskip : cap ≤ counts x.subtype ∧ x.total_score < thr
        · rw [if_pos hskip]
          exact ih sel counts hnd
        · rw [if_neg hskip]
          refine ih _ _ (List.Nodup.append hnd (List.nodup_singleton x) ?_)
          rw [List.disjoint_left]
          intro a ha hab
          simp only [List.mem_singleton] at hab
          subst hab
          exact hmem ha

/-- C10 (amended): every object returned by `select_best_objects` is an
element of the input list, and whenever the input list contains no object
twice the output contains no object twice (objects compared by dataclass
value equality, as Python `in` does). -/
theorem select_best_objects_membership_nodup :
    ∀ (objs : List ScoredObject) (N : ℕ) (min_score : ℚ) (cap : ℕ)
      (thr : ℚ) (ensure : Bool),
      (∀ o ∈ select_best_objects objs N min_score cap thr ensure,
        o ∈ objs) ∧
      (objs.Nodup →
        (select_best_objects objs N min_score cap thr ensure).Nodup) := by
  intro objs N min_score cap thr ensure
  unfold select_best_objects
  by_cases hv : objs.filter (fun o => min_score ≤ o.total_score) = []
  · simp only [if_pos hv]
    constructor
    · intro o ho
      have h1 : o ∈ sortByScoreDesc objs :=
        (List.take_sublist _ _).subset ho
      exact (List.perm_insertionSort _ _).mem_iff.mp h1
    · intro hnd
      refine (List.take_sublist _ _).nodup ?_
      exact ((List.perm_insertionSort _ _).nodup_iff).mpr hnd
  · simp only [if_neg hv]
    set ranked := sortByScoreDesc
      (objs.filter (fun o => min_score ≤ o.total_score)) with hranked
    have hrksub : ∀ o, o ∈ ranked → o ∈ objs := by
      intro o ho
      have h1 : o ∈ objs.filter (fun x => min_score ≤ x.total_score) :=
        (List.perm_insertionSort _ _).mem_iff.mp ho
      exact (List.mem_filter.mp h1).1
    have hstartmem : ∀ o ∈ (if ensure then
        categoryPass ranked ((ranked.map (fun x => x.category)).dedup) []
          (fun _ => 0)
      else ([], fun _ => 0)).1, o ∈ ranked := by
      intro o ho
      cases ensure with
      | true =>
        rcases categoryPass_mem ranked _ [] (fun _ => 0) o
          (by simpa using ho) with h | h
        · simp at h
        · exact h
      | false => simp at ho
    have hstartnd : (if ensure then
        categoryPass ranked ((ranked.map (fun x => x.category)).dedup) []
          (fun _ => 0)
      else ([], fun _ => 0)).1.Nodup := by
      cases ensure with
      | true =>
        have h := categoryPass_nodup ranked
          ((ranked.map (fun x => x.category)).dedup) [] (fun _ => 0)
          List.nodup_nil
        simpa using h
      | false => simp
    constructor
    · intro o ho
      have h1 := (List.perm_insertionSort _ _).mem_iff.mp ho
      rcases fillLoop_mem N cap thr ranked _ _ o h1 with h | h
      · exact hrksub o (hstartmem o h)
      · exact hrksub o h
    · intro _
      exact ((List.perm_insertionSort _ _).nodup_iff).mpr
        (fillLoop_nodup N cap thr ranked _ _ hstartnd)

/-- C10 counterexample: in the fallback case (no object meets the floor),
a twice-repeated input object is returned twice — the output is not
duplicate-free for every input list. -/
theorem select_best_objects_duplicate_output :
    select_best_objects [mkScored "a" "dso" "galaxy" 10,
        mkScored "a" "dso" "galaxy" 10] 2 60 3 180 true =
      [mkScored "a" "dso" "galaxy" 10, mkScored "a" "dso" "galaxy" 10] ∧
    ¬ (select_best_objects [mkScored "a" "dso" "galaxy" 10,
        mkScored "a" "dso" "galaxy" 10] 2 60 3 180 true).Nodup := by
  constructor <;> decide

/-- C10 witness: the amended theorem applied to a concrete duplicate-free
input. -/
theorem select_best_objects_membership_nodup_witness :
    (select_best_objects [mkScored "a" "planet" "outer" 100,
      mkScored "b" "dso" "galaxy" 90] 2 60 3 180 true).Nodup :=
  (select_best_objects_membership_nodup
    [mkScored "a" "planet" "outer" 100, mkScored "b" "dso" "galaxy" 90]
    2 60 3 180 true).2 (by decide)

theorem consRun_ne_nil (r : WeatherRun) (rs : List WeatherRun) :
    consRun r rs ≠ [] := by
  unfold consRun
  cases rs with
  | nil => simp
  | cons rr rest =>
    by_cases h : rr.cat = r.cat
    · simp [h]
    · simp [h]

theorem consRun_head (r : WeatherRun) (rs : List WeatherRun) :
    ∃ tail, consRun r rs = ⟨r.start, r.cat, tail⟩ :: (consRun r rs).tail := by
  unfold consRun
  cases rs with
  | nil => exact ⟨r.clouds, rfl⟩
  | cons rr rest =>
    by_cases h : rr.cat = r.cat
    · simp only [if_pos h]
      exact ⟨r.clouds ++ rr.clouds, rfl⟩
    · simp only [if_neg h]
      exact ⟨r.clouds, rfl⟩

theorem consRun_merge (cs h : ℚ) (cc : String) (clouds : List ℚ) (c : ℚ)
    (rs : List WeatherRun) :
    consRun ⟨cs, cc, clouds⟩ (consRun ⟨h, cc, [c]⟩ rs) =
      consRun ⟨cs, cc, clouds ++ [c]⟩ rs := by
  cases rs with
  | nil => simp [consRun]
  | cons rr rest =>
    by_cases h1 : rr.cat = cc
    · simp [consRun, h1, List.append_assoc]
    · simp [consRun, h1]

theorem weatherLoop_spec (dawnN : ℚ) :
    ∀ (rest : List (ℚ × ℚ)) (cs : ℚ) (cc : String) (clouds : List ℚ)
      (ws : List WeatherWindow),
      weatherLoop dawnN rest cs cc clouds ws =
        ws ++ windowsOfRuns dawnN (consRun ⟨cs, cc, clouds⟩ (runsOf rest)) := by
  intro rest
  induction rest with
  | nil =>
    intro cs cc clouds ws
    simp [weatherLoop, runsOf, consRun, windowsOfRuns]
  | cons p rest ih =>
    obtain ⟨h, c⟩ := p
    intro cs cc clouds ws
    simp only [weatherLoop]
    by_cases hcat : (get_weather_category c).1 ≠ cc
    · rw [if_pos hcat]
      rw [ih]
      have hne := consRun_ne_nil ⟨h, (get_weather_category c).1, [c]⟩
        (runsOf rest)
      obtain ⟨tail, htail⟩ := consRun_head
        ⟨h, (get_weather_category c).1, [c]⟩ (runsOf rest)
      show (ws ++ [mkWeatherWindow cs h clouds cc]) ++
          windowsOfRuns dawnN
            (consRun ⟨h, (get_weather_category c).1, [c]⟩ (runsOf rest)) =
        ws ++ windowsOfRuns dawnN
          (consRun ⟨cs, cc, clouds⟩
            (runsOf ((h, c) :: rest)))
      have hrof : runsOf ((h, c) :: rest) =
          consRun ⟨h, (get_weather_category c).1, [c]⟩ (runsOf rest) := rfl
      rw [hrof, htail]
      have houter : consRun ⟨cs, cc, clouds⟩
          ((⟨h, (get_weather_category c).1, tail⟩ : WeatherRun) ::
            (consRun ⟨h, (get_weather_category c).1, [c]⟩
              (runsOf rest)).tail) =
          ⟨cs, cc, clouds⟩ ::
            (⟨h, (get_weather_category c).1, tail⟩ : WeatherRun) ::
              (consRun ⟨h, (get_weather_category c).1, [c]⟩
                (runsOf rest)).tail := by
        unfold consRun
        simp only
        rw [if_neg hcat]
      rw [houter]
      simp only [windowsOfRuns, mkWeatherWindow]
      rw [List.append_assoc]
      rfl
    · rw [if_neg hcat]
      push_neg at hcat
      rw [ih]
      have hrof : runsOf ((h, c) :: rest) =
          consRun ⟨h, (get_weather_category c).1, [c]⟩ (runsOf rest) := rfl
      rw [hrof, hcat, consRun_merge]

theorem consRun_facts (r : WeatherRun) (rs : List WeatherRun)
    (hr : ∀ c ∈ r.clouds, (get_weather_category c).1 = r.cat)
    (h1 : rs.Chain' (fun a b => a.cat ≠ b.cat))
    (h2 : ∀ x ∈ rs, ∀ c ∈ x.clouds, (get_weather_category c).1 = x.cat) :
    (consRun r rs).Chain' (fun a b => a.cat ≠ b.cat) ∧
    (∀ x ∈ consRun r rs, ∀ c ∈ x.clouds,
      (get_weather_category c).1 = x.cat) ∧
    ((consRun r rs).map (fun x => x.clouds)).join =
      r.clouds ++ (rs.map (fun x => x.clouds)).join := by
  cases rs with
  | nil =>
    refine ⟨List.chain'_singleton r, ?_, by simp [consRun]⟩
    intro x hx
    simp only [consRun, List.mem_singleton] at hx
    subst hx
    exact hr
  | cons rr rest =>
    by_cases hm : rr.cat = r.cat
    · have hcons : consRun r (rr :: rest) =
          ⟨r.start, r.cat, r.clouds ++ rr.clouds⟩ :: rest := by
        show (if rr.cat = r.cat then
            (⟨r.start, r.cat, r.clouds ++ rr.clouds⟩ : WeatherRun) :: rest
          else r :: rr :: rest) =
          ⟨r.start, r.cat, r.clouds ++ rr.clouds⟩ :: rest
        rw [if_pos hm]
      rw [hcons]
      obtain ⟨hhd, htl⟩ := List.chain'_cons'.mp h1
      refine ⟨List.chain'_cons'.mpr ⟨?_, htl⟩, ?_, ?_⟩
      · intro b hb
        have := hhd b hb
        simpa [hm] using this
      · intro x hx c hc
        rcases List.mem_cons.mp hx with rfl | hx
        · rcases List.mem_append.mp hc with h | h
          · exact hr c h
          · have := h2 rr (List.mem_cons_self _ _) c h
            simpa [hm] using this
        · exact h2 x (List.mem_cons_of_mem _ hx) c hc
      · simp [List.append_assoc]
    · have hcons : consRun r (rr :: rest) = r :: rr :: rest := by
        show (if rr.cat = r.cat then
            (⟨r.start, r.cat, r.clouds ++ rr.clouds⟩ : WeatherRun) :: rest
          else r :: rr :: rest) = r :: rr :: rest
        rw [if_neg hm]
      rw [hcons]
      refine ⟨List.chain'_cons'.mpr ⟨?_, h1⟩, ?_, by simp⟩
      · intro b hb
        simp only [List.head?_cons, Option.mem_def, Option.some.injEq] at hb
        subst hb
        exact fun hh => hm hh.symm
      · intro x hx c hc
        rcases List.mem_cons.mp hx with rfl | hx
        · exact hr c hc
        · exact h2 x hx c hc

theorem runsOf_facts :
    ∀ l : List (ℚ × ℚ),
      (runsOf l).Chain' (fun a b => a.cat ≠ b.cat) ∧
      (∀ r ∈ runsOf l, ∀ c ∈ r.clouds,
        (get_weather_category c).1 = r.cat) ∧
      ((runsOf l).map (fun r => r.clouds)).join = l.map (fun p => p.2) := by
  intro l
  induction l with
  | nil => simp [runsOf]
  | cons p rest ih =>
    obtain ⟨h, c⟩ := p
    obtain ⟨ih1, ih2, ih3⟩ := ih
    have hsingle0 : ∀ x ∈ [c], (get_weather_category x).1 =
        (WeatherRun.mk h (get_weather_category c).1 [c]).cat := by
      intro x hx
      simp only [List.mem_singleton] at hx
      subst hx
      rfl
    have hfacts := consRun_facts ⟨h, (get_weather_category c).1, [c]⟩
      (runsOf rest) hsingle0 ih1 ih2
    obtain ⟨f1, f2, f3⟩ := hfacts
    refine ⟨f1, f2, ?_⟩
    show ((consRun ⟨h, (get_weather_category c).1, [c]⟩
      (runsOf rest)).map (fun r => r.clouds)).join = c :: rest.map (fun p => p.2)
    rw [f3, ih3]
    rfl

theorem windowsOfRuns_last (dawnN : ℚ) :
    ∀ runs : List WeatherRun, runs ≠ [] →
      ∃ w, (windowsOfRuns dawnN runs).getLast? = some w ∧ w.stop = dawnN := by
  intro runs
  induction runs with
  | nil => intro h; exact absurd rfl h
  | cons r rest ih =>
    intro _
    cases rest with
    | nil =>
      exact ⟨mkWeatherWindow r.start dawnN r.clouds r.cat, rfl, rfl⟩
    | cons rr rest2 =>
      obtain ⟨w, hw, hws⟩ := ih (by simp)
      refine ⟨w, ?_, hws⟩
      have hshape : windowsOfRuns dawnN (r :: rr :: rest2) =
          mkWeatherWindow r.start rr.start r.clouds r.cat ::
            windowsOfRuns dawnN (rr :: rest2) := rfl
      rw [hshape]
      have hne : windowsOfRuns dawnN (rr :: rest2) ≠ [] := by
        intro hnil
        rw [hnil] at hw
        exact absurd hw (by simp)
      obtain ⟨y, ys, hys⟩ := List.exists_cons_of_ne_nil hne
      rw [hys]
      rw [hys] at hw
      rw [List.getLast?_cons_cons]
      exact hw

theorem windowsOfRuns_ne_nil (dawnN : ℚ) (runs : List WeatherRun)
    (h : runs ≠ []) : windowsOfRuns dawnN runs ≠ [] := by
  cases runs with
  | nil => exact absurd rfl h
  | cons r rest =>
    cases rest with
    | nil => simp [windowsOfRuns]
    | cons rr rest2 => simp [windowsOfRuns]

/-- C9: the window builder of `_group_by_weather_windows` is exactly the
specification: within the night bounds the (sorted) hourly samples are
merged into maximal runs of one weather category (adjacent runs have
different categories, every hour of a run shares the run category, and the
runs partition the cloud samples); each emitted window spans from its run
start to the next run start, carrying the exact average, minimum and
maximum of the run's cloud values; the final window's end is the (wrapped)
dawn even when its last sample is earlier; and with no hourly weather data
a single whole-night window with an undefined category is emitted. -/
theorem build_weather_windows_spec :
    ∀ (hourly_data : List (ℚ × ℚ)) (dusk dawn₀ : ℚ) (dawn : ℚ),
      dawn = (if dawn₀ ≤ dusk then dawn₀ + 1440 else dawn₀) →
      ∀ night_hours,
        night_hours = sortHours (hourly_data.filter
          (fun p => dusk ≤ p.1 ∧ p.1 ≤ dawn)) →
      (hourly_data = [] →
        build_weather_windows hourly_data (some dusk) (some dawn₀) =
          [⟨dusk, dawn, none, none, none, none⟩]) ∧
      (night_hours ≠ [] →
        build_weather_windows hourly_data (some dusk) (some dawn₀) =
          windowsOfRuns dawn (runsOf night_hours) ∧
        (runsOf night_hours).Chain' (fun a b => a.cat ≠ b.cat) ∧
        (∀ r ∈ runsOf night_hours, ∀ c ∈ r.clouds,
          (get_weather_category c).1 = r.cat) ∧
        ((runsOf night_hours).map (fun r => r.clouds)).join =
          night_hours.map (fun p => p.2) ∧
        (∃ w, (build_weather_windows hourly_data (some dusk)
            (some dawn₀)).getLast? = some w ∧ w.stop = dawn)) := by
  intro hourly_data dusk dawn₀ dawn hdawn night_hours hnh
  constructor
  · intro h0
    subst h0
    subst hdawn
    simp [build_weather_windows]
  · intro hne
    have hhd : hourly_data ≠ [] := by
      intro h0
      apply hne
      rw [hnh, h0]
      rfl
    obtain ⟨p, rest, hcons⟩ := List.exists_cons_of_ne_nil hne
    obtain ⟨h₀, c₀⟩ := p
    have hwins : build_weather_windows hourly_data (some dusk)
        (some dawn₀) = windowsOfRuns dawn (runsOf night_hours) := by
      have hloop : weatherLoop dawn rest h₀ (get_weather_category c₀).1
          [c₀] [] = windowsOfRuns dawn (runsOf night_hours) := by
        rw [weatherLoop_spec, hcons]
        rfl
      have hlne : windowsOfRuns dawn (runsOf night_hours) ≠ [] := by
        apply windowsOfRuns_ne_nil
        rw [hcons]
        exact consRun_ne_nil _ _
      subst hdawn
      simp only [build_weather_windows]
      rw [if_pos hhd]
      rw [← hnh]
      simp only [hcons, hloop]
      rw [hcons] at hlne
      rw [if_neg hlne]
    refine ⟨hwins, (runsOf_facts night_hours).1,
      (runsOf_facts night_hours).2.1, (runsOf_facts night_hours).2.2, ?_⟩
    rw [hwins]
    apply windowsOfRuns_last
    rw [hcons]
    exact consRun_ne_nil _ _

/-- C9 witness: the window-builder specification applied to a concrete
night (dusk 0, dawn 600) with one in-bounds hourly sample: the final (only)
window ends at dawn even though its sample sits at hour 10. -/
theorem build_weather_windows_spec_witness :
    ∃ w, (build_weather_windows [(10, 5)] (some 0)
        (some 600)).getLast? = some w ∧ w.stop = 600 :=
  ((build_weather_windows_spec [(10, 5)] 0 600 600 (by norm_num) _
    rfl).2 (by decide)).2.2.2.2

end NightSeek
